import Mathlib

/-!
Shallow embedding of the sports-signals-system core:

* `SportsDB` — the canonical store (`src/shared/database/models.py`,
  `src/shared/database/data_access.py`): the `events` and
  `event_source_mappings` tables, the `save_or_update_event` upsert with its
  merge acceptance policy, the monitoring query, and the commit-time unique
  constraints declared in `models.py` (PostgreSQL semantics: rows whose
  `league_id` is NULL never conflict on the canonical-event unique key).
* `AntiBlock` — the token-bucket admission controller
  (`src/shared/core/anti_block.py`), with wall-clock time passed explicitly
  and timestamps/tokens as rationals.
* `LiveMonitor` — the hibernation sleep computation of the live scheduler
  (`src/live-monitor/main.py`).

Conventions: Python dicts with a fixed field set are structures of `Option`
fields; an outer `none` stands for an absent key.  For columns that are
nullable in the schema and can also carry an explicit `None` value in the
normalized dict, the field is `Option (Option _)`: outer = key present,
inner = value or SQL NULL (the normalizers in `src/shared/core/normalizer.py`
emit every key, possibly with `None`).  Instants are epoch seconds (`Int`);
Python truthiness of the validated values is modelled exactly (a datetime is
truthy whenever present, a string is truthy when nonempty, an integer when
nonzero).  `last_data_source` is not a field of the incoming record because
`save_or_update_event` always overwrites it from the source name
(data_access.py lines 113 and 121) after the field-copy loop.
-/

namespace SportsDB

/-- A row of the `events` table (`models.py`, class `Event`).  Column types
follow the schema: `NOT NULL` columns are plain values, nullable columns are
`Option`.  `home_score`/`away_score` are nullable with insert default 0;
`statistics` is a nullable JSONB with insert default `{}` (represented as an
opaque string blob). -/
structure Event where
  id : Nat
  event_name : String
  sport_name : String
  event_status : String
  current_game_time : Option Int
  home_team_name : String
  away_team_name : String
  home_score : Option Int
  away_score : Option Int
  league_name : Option String
  league_id : Option String
  event_timestamp : Int
  last_data_source : Option String
  last_updated_timestamp : Int
  statistics : Option String
deriving DecidableEq, Repr

/-- The normalized event dict handed to `save_or_update_event`
(built by `DataNormalizer.normalize_sofascore_match` /
`normalize_thesportsdb_match`). -/
structure NormalizedEvent where
  event_name : Option String := none
  sport_name : Option String := none
  event_status : Option String := none
  current_game_time : Option (Option Int) := none
  home_team_name : Option String := none
  away_team_name : Option String := none
  home_score : Option (Option Int) := none
  away_score : Option (Option Int) := none
  league_name : Option (Option String) := none
  league_id : Option (Option String) := none
  event_timestamp : Option Int := none
  last_updated_timestamp : Option Int := none
  statistics : Option (Option String) := none
deriving DecidableEq, Repr

/-- The `source_mapping_data` dict: `(provider, provider_event_id)`. -/
structure SourceData where
  source_name : Option String := none
  source_event_id : Option String := none
deriving DecidableEq, Repr

/-- A row of the `event_source_mappings` table (`models.py`,
class `EventSourceMapping`); the surrogate `id` column is irrelevant to
behaviour and omitted. -/
structure Mapping where
  event_id : Nat
  source_name : String
  source_event_id : String
deriving DecidableEq, Repr

/-- The relational store state: both tables plus the id sequence. -/
structure DB where
  events : List Event
  mappings : List Mapping
  nextId : Nat
deriving DecidableEq, Repr

def emptyDB : DB := { events := [], mappings := [], nextId := 0 }

/-- Observable outcome of one `save_or_update_event` call, mirroring the
code paths of data_access.py lines 54-161: validation failure (line 56),
creation (line 120), accepted update (line 106), rejected/stale observation
(the `should_update = False` path), conflict resolved after an
`IntegrityError` rollback (line 155), conflict not resolved (line 156), and
the dead branch where a mapping's foreign key has no event row. -/
inductive Outcome where
  | validationFailed
  | created
  | updated
  | unchanged
  | conflictResolved
  | conflictUnresolved
  | internalError
deriving DecidableEq, Repr

/-- Python truthiness of an optional string (absent and `""` are falsy). -/
def truthyStr (s : Option String) : Bool :=
  match s with
  | none => false
  | some v => v != ""

/-- Python truthiness of an optional integer (absent and `0` are falsy). -/
def truthyInt (i : Option Int) : Bool :=
  match i with
  | none => false
  | some v => v != 0

/-- data_access.py line 54: `if not all([event_timestamp, home_team_name,
away_team_name, source_name, source_event_id, incoming_last_updated_timestamp])`.
A datetime object is truthy whenever present. -/
def validateInputs (n : NormalizedEvent) (m : SourceData) : Bool :=
  n.event_timestamp.isSome && truthyStr n.home_team_name && truthyStr n.away_team_name
    && truthyStr m.source_name && truthyStr m.source_event_id
    && truthyInt n.last_updated_timestamp

/-- data_access.py lines 87-104: the merge acceptance decision
(`should_update`). `lu` is the validated incoming `last_updated_timestamp`. -/
def shouldUpdate (ev : Event) (n : NormalizedEvent) (lu : Int) : Bool :=
  if lu > ev.last_updated_timestamp then true
  else if lu = ev.last_updated_timestamp then
    ((n.event_status == some "inprogress") || (ev.event_status == "inprogress"))
      && (match n.current_game_time.join with
          | none => false
          | some g =>
            match ev.current_game_time with
            | none => true
            | some g0 => decide (g0 < g))
  else false

/-- data_access.py lines 109-114: the `setattr` field-copy loop over every
key present in the incoming dict, followed by the unconditional overwrite of
`last_data_source` and `last_updated_timestamp`. -/
def applyUpdate (e : Event) (n : NormalizedEvent) (src : String) (lu : Int) : Event :=
  { e with
    event_name := n.event_name.getD e.event_name
    sport_name := n.sport_name.getD e.sport_name
    event_status := n.event_status.getD e.event_status
    current_game_time := n.current_game_time.getD e.current_game_time
    home_team_name := n.home_team_name.getD e.home_team_name
    away_team_name := n.away_team_name.getD e.away_team_name
    home_score := n.home_score.getD e.home_score
    away_score := n.away_score.getD e.away_score
    league_name := n.league_name.getD e.league_name
    league_id := n.league_id.getD e.league_id
    event_timestamp := n.event_timestamp.getD e.event_timestamp
    last_data_source := some src
    last_updated_timestamp := lu
    statistics := n.statistics.getD e.statistics }

/-- data_access.py line 120: `Event(**normalized_event_data)` followed by
`new_event.last_data_source = source_name`.  Yields `none` when a `NOT NULL`
column without a default would receive NULL (the flush would raise
`IntegrityError`).  The SQLAlchemy ORM applies column insert defaults when
the attribute value is `None`, so scores default to 0 and statistics to the
empty document. -/
def mkEvent (nid : Nat) (n : NormalizedEvent) (src : String) (lu : Int) : Option Event :=
  match n.event_name, n.sport_name, n.event_status, n.home_team_name,
        n.away_team_name, n.event_timestamp with
  | some en, some sp, some st, some hm, some aw, some ts =>
    some { id := nid
           event_name := en
           sport_name := sp
           event_status := st
           current_game_time := n.current_game_time.join
           home_team_name := hm
           away_team_name := aw
           home_score := some ((n.home_score.join).getD 0)
           away_score := some ((n.away_score.join).getD 0)
           league_name := n.league_name.join
           league_id := n.league_id.join
           event_timestamp := ts
           last_data_source := some src
           last_updated_timestamp := lu
           statistics := some ((n.statistics.join).getD "\x7b\x7d") }
  | _, _, _, _, _, _ => none

/-- data_access.py lines 63-66: lookup of the source mapping. -/
def findMapping (db : DB) (src sid : String) : Option Mapping :=
  db.mappings.find? (fun mp => mp.source_name == src && mp.source_event_id == sid)

/-- data_access.py lines 76-81 (and the post-rollback re-read at lines
147-152): lookup of a canonical event by the dedup key; SQLAlchemy compiles
a comparison against `None` to `IS NULL`, so `Option` equality is the right
semantics. -/
def findByKey (db : DB) (ts : Int) (hm aw : String) (lg : Option String) : Option Event :=
  db.events.find? (fun e =>
    e.event_timestamp == ts && e.home_team_name == hm
      && e.away_team_name == aw && e.league_id == lg)

/-- In-place mutation of the ORM-attached event object. -/
def replaceEvent (l : List Event) (eid : Nat) (e' : Event) : List Event :=
  l.map (fun e => if e.id == eid then e' else e)

/-- `pairwiseOK f l` holds when `f x y` for every pair of entries `x`
occurring before `y` in `l`. -/
def pairwiseOK (f : α → α → Bool) : List α → Bool
  | [] => true
  | x :: xs => xs.all (f x) && pairwiseOK f xs

/-- Violation of `uq_event_canonical` (models.py line 55) between two rows.
PostgreSQL unique constraints treat NULLs as distinct, so two rows with a
NULL `league_id` never conflict. -/
def eventKeyClash (e1 e2 : Event) : Bool :=
  e1.event_timestamp == e2.event_timestamp && e1.home_team_name == e2.home_team_name
    && e1.away_team_name == e2.away_team_name
    && e1.league_id.isSome && e1.league_id == e2.league_id

/-- Violation of `uq_source_event` or `uq_event_id_source`
(models.py lines 77-78) between two mapping rows. -/
def mappingClash (m1 m2 : Mapping) : Bool :=
  (m1.source_name == m2.source_name && m1.source_event_id == m2.source_event_id)
    || (m1.event_id == m2.event_id && m1.source_name == m2.source_name)

def eventsOK (l : List Event) : Bool := pairwiseOK (fun a b => !eventKeyClash a b) l

def mappingsOK (l : List Mapping) : Bool := pairwiseOK (fun a b => !mappingClash a b) l

/-- The unique constraints the database enforces at commit time. -/
def constraintsOK (db : DB) : Bool := eventsOK db.events && mappingsOK db.mappings

/-- data_access.py lines 143-156: `IntegrityError` handling — roll the
transaction back (the pre-transaction store is kept) and re-read by the
incoming dedup key, returning the existing event when found. -/
def resolveConflict (db : DB) (ts : Int) (hm aw : String) (lg : Option String) :
    DB × Option Event × Outcome :=
  match findByKey db ts hm aw lg with
  | some e => (db, some e, Outcome.conflictResolved)
  | none => (db, none, Outcome.conflictUnresolved)

/-- `DataAccess.save_or_update_event` (data_access.py lines 29-161): the
lookup-decide-write-and-mapping-creation transaction.  Returns the store
after the call, the returned event (`None` on failure) and the observable
outcome.  A commit whose resulting table contents violate a unique
constraint raises `IntegrityError`, which the code resolves by rollback and
re-read. -/
def save_or_update_event (db : DB) (n : NormalizedEvent) (m : SourceData) :
    DB × Option Event × Outcome :=
  if validateInputs n m then
    let src := m.source_name.getD ""
    let sid := m.source_event_id.getD ""
    let lu := n.last_updated_timestamp.getD 0
    let ts := n.event_timestamp.getD 0
    let hm := n.home_team_name.getD ""
    let aw := n.away_team_name.getD ""
    let lg := n.league_id.join
    match findMapping db src sid with
    | some mp =>
      match db.events.find? (fun e => e.id == mp.event_id) with
      | none => (db, none, Outcome.internalError)
      | some ev =>
        let su := shouldUpdate ev n lu
        let ev' := if su then applyUpdate ev n src lu else ev
        let db' : DB := { db with events := replaceEvent db.events ev.id ev' }
        if constraintsOK db' then
          (db', some ev', if su then Outcome.updated else Outcome.unchanged)
        else resolveConflict db ts hm aw lg
    | none =>
      match findByKey db ts hm aw lg with
      | some ev =>
        let su := shouldUpdate ev n lu
        let ev' := if su then applyUpdate ev n src lu else ev
        let db' : DB :=
          { events := replaceEvent db.events ev.id ev'
            mappings := db.mappings ++ [{ event_id := ev.id, source_name := src,
                                          source_event_id := sid }]
            nextId := db.nextId }
        if constraintsOK db' then
          (db', some ev', if su then Outcome.updated else Outcome.unchanged)
        else resolveConflict db ts hm aw lg
      | none =>
        match mkEvent db.nextId n src lu with
        | none =>
          -- NOT NULL violation at flush; the re-read by key repeats the
          -- lookup that just returned nothing.
          (db, none, Outcome.conflictUnresolved)
        | some ne =>
          let db' : DB :=
            { events := db.events ++ [ne]
              mappings := db.mappings ++ [{ event_id := db.nextId, source_name := src,
                                            source_event_id := sid }]
              nextId := db.nextId + 1 }
          if constraintsOK db' then (db', some ne, Outcome.created)
          else resolveConflict db ts hm aw lg
  else (db, none, Outcome.validationFailed)

/-- A sequence of upserts (any providers, any order). -/
def applyAll (db : DB) (obs : List (NormalizedEvent × SourceData)) : DB :=
  obs.foldl (fun d o => (save_or_update_event d o.1 o.2).1) db

def idsUnique (l : List Event) : Bool := pairwiseOK (fun a b => a.id != b.id) l

/-- Well-formedness of a store state: distinct primary keys, foreign-key
integrity of the mappings, the id sequence ahead of every row, and the
declared unique constraints. -/
def wf (db : DB) : Bool :=
  idsUnique db.events
    && db.mappings.all (fun mp => db.events.any (fun e => e.id == mp.event_id))
    && db.events.all (fun e => e.id < db.nextId)
    && constraintsOK db

/-- The resolution order of data_access.py lines 61-84: the merge target is
the event linked from an existing source mapping when one exists, otherwise
the event found by the dedup key. -/
def mergeTarget (db : DB) (n : NormalizedEvent) (m : SourceData) : Option Event :=
  let src := m.source_name.getD ""
  let sid := m.source_event_id.getD ""
  let ts := n.event_timestamp.getD 0
  let hm := n.home_team_name.getD ""
  let aw := n.away_team_name.getD ""
  let lg := n.league_id.join
  match findMapping db src sid with
  | some mp => db.events.find? (fun e => e.id == mp.event_id)
  | none => findByKey db ts hm aw lg

/-- The dedup-key projection of an event row. -/
def key4 (e : Event) : Int × String × String × Option String :=
  (e.event_timestamp, e.home_team_name, e.away_team_name, e.league_id)

/-- The merge acceptance policy in the words of the spec: accept iff the
incoming `last_updated_timestamp` is strictly newer, or the timestamps are
equal, the match is live on either side, and the incoming
`current_game_time` is present and strictly exceeds the stored one (a
missing stored value counting as lower than any present value). -/
def specAccepts (ev : Event) (n : NormalizedEvent) (lu : Int) : Prop :=
  ev.last_updated_timestamp < lu
    ∨ (lu = ev.last_updated_timestamp
        ∧ (n.event_status = some "inprogress" ∨ ev.event_status = "inprogress")
        ∧ ∃ g, n.current_game_time.join = some g
            ∧ (ev.current_game_time = none
                ∨ ∃ g0, ev.current_game_time = some g0 ∧ g0 < g))

/-- The shape every record produced by the normalizers has: all thirteen
keys present, with non-NULL values for the columns the normalizers always
populate (name, sport, status, team names, scores, start instant,
processing timestamp, statistics).  `current_game_time`, `league_name` and
`league_id` may carry an explicit NULL. -/
def someSome {α : Type _} (x : Option (Option α)) : Bool :=
  match x with
  | some (some _) => true
  | _ => false

def wellShaped (n : NormalizedEvent) : Bool :=
  n.event_name.isSome && n.sport_name.isSome && n.event_status.isSome
    && n.current_game_time.isSome
    && truthyStr n.home_team_name && truthyStr n.away_team_name
    && someSome n.home_score && someSome n.away_score
    && n.league_name.isSome && n.league_id.isSome
    && n.event_timestamp.isSome && truthyInt n.last_updated_timestamp
    && someSome n.statistics

/-- A usable `(provider, provider_event_id)` pair. -/
def sourceOK (m : SourceData) : Bool :=
  truthyStr m.source_name && truthyStr m.source_event_id

/-- Total form of `mkEvent`; agrees with it on well-shaped input. -/
def mkEventW (nid : Nat) (n : NormalizedEvent) (src : String) (lu : Int) : Event :=
  { id := nid
    event_name := n.event_name.getD ""
    sport_name := n.sport_name.getD ""
    event_status := n.event_status.getD ""
    current_game_time := n.current_game_time.join
    home_team_name := n.home_team_name.getD ""
    away_team_name := n.away_team_name.getD ""
    home_score := some ((n.home_score.join).getD 0)
    away_score := some ((n.away_score.join).getD 0)
    league_name := n.league_name.join
    league_id := n.league_id.join
    event_timestamp := n.event_timestamp.getD 0
    last_data_source := some src
    last_updated_timestamp := lu
    statistics := some ((n.statistics.join).getD "\x7b\x7d") }

/-- Insertion into a list kept sorted by `event_timestamp` ascending. -/
def insertByTs (e : Event) : List Event → List Event
  | [] => [e]
  | x :: xs =>
    if e.event_timestamp ≤ x.event_timestamp then e :: x :: xs
    else x :: insertByTs e xs

/-- `ORDER BY event_timestamp ASC`. -/
def sortByTs (l : List Event) : List Event := l.foldr insertByTs []

/-- `DataAccess.get_events_for_monitoring` (data_access.py lines 163-181)
with the query translated as written: keep every event whose status is
`inprogress`, plus every `scheduled` event whose start instant is at least
`now - time_buffer_minutes` (the filter has no upper bound), ordered by
start instant ascending.  `now` is the wall clock in epoch seconds.  Note
that the Python function cannot actually run: `timedelta` is referenced at
line 171 but `data_access.py` imports only `datetime`, so every call raises
`NameError`. -/
def get_events_for_monitoring (db : DB) (now : Int) (time_buffer_minutes : Int) :
    List Event :=
  let time_threshold := now - time_buffer_minutes * 60
  sortByTs (db.events.filter (fun e =>
    e.event_status == "inprogress"
      || (e.event_status == "scheduled" && time_threshold ≤ e.event_timestamp)))

end SportsDB

namespace AntiBlock

/-- Mutable state of `TokenBucketAntiBlockStrategy`
(anti_block.py lines 25-41).  Tokens and instants are rationals; the wall
clock is passed explicitly to every operation. -/
structure Bucket where
  capacity : ℚ
  fill_rate : ℚ
  tokens : ℚ
  last_refill_time : ℚ
deriving DecidableEq, Repr

/-- `TokenBucketAntiBlockStrategy.__init__` (anti_block.py lines 25-41):
raises `ValueError` when `capacity <= 0 or fill_rate <= 0`; otherwise the
token count starts at `initial_tokens` when supplied (not clamped) and at
`capacity` otherwise, and `last_refill_time` is the current wall clock. -/
def init (capacity fill_rate : ℚ) (initial_tokens : Option ℚ) (now : ℚ) :
    Except String Bucket :=
  if capacity ≤ 0 ∨ fill_rate ≤ 0 then Except.error "ValueError"
  else Except.ok
    { capacity := capacity
      fill_rate := fill_rate
      tokens := initial_tokens.getD capacity
      last_refill_time := now }

/-- Python's builtin `min` on rationals (kept as an `if` so that concrete
states evaluate by kernel reduction). -/
def pymin (a b : ℚ) : ℚ := if a ≤ b then a else b

/-- `TokenBucketAntiBlockStrategy._refill_tokens` (anti_block.py lines
43-49): add `elapsed * fill_rate` tokens capped at `capacity` and advance
`last_refill_time`. -/
def refill_tokens (b : Bucket) (now : ℚ) : Bucket :=
  let time_passed := now - b.last_refill_time
  let new_tokens := time_passed * b.fill_rate
  { b with tokens := pymin b.capacity (b.tokens + new_tokens), last_refill_time := now }

/-- `TokenBucketAntiBlockStrategy.wait_before_request` (anti_block.py lines
51-67).  The loop is modelled with fuel; a `time.sleep` is assumed to
advance the wall clock by exactly the requested duration, so the returned
triple is (state after the call, wall clock at return, the list of sleep
durations performed).  `none` means the fuel ran out before a token was
available. -/
def wait_before_request (b : Bucket) (now : ℚ) :
    Nat → Option (Bucket × ℚ × List ℚ)
  | 0 => none
  | fuel + 1 =>
    let b' := refill_tokens b now
    if 1 ≤ b'.tokens then
      some ({ b' with tokens := b'.tokens - 1 }, now, [])
    else
      let tokens_needed := 1 - b'.tokens
      let time_to_wait := tokens_needed / b'.fill_rate
      let sleep := time_to_wait + 1 / 100
      (wait_before_request b' (now + sleep) fuel).map
        (fun r => (r.1, r.2.1, sleep :: r.2.2))

/-- A run of `count` consecutive `wait_before_request` calls starting at
instant `now` with no time passing between calls (each call resumes at the
clock value at which the previous one returned); collects every sleep
performed. -/
def acquireSeq (b : Bucket) (now : ℚ) : Nat → Option (Bucket × ℚ × List ℚ)
  | 0 => some (b, now, [])
  | n + 1 =>
    (acquireSeq b now n).bind (fun r =>
      (wait_before_request r.1 r.2.1 2).map
        (fun s => (s.1, s.2.1, r.2.2 ++ s.2.2)))

end AntiBlock

namespace LiveMonitor

/-- The sleep-duration computation written in the hibernating branch of
`monitor_live_matches` (main.py lines 150-174), in seconds.  The branch can
never actually run: it first calls
`data_access.get_next_scheduled_match_start_time()` (main.py line 148), a
method that does not exist on `DataAccess` — the class offers
`get_next_scheduled_event_start_time` instead — so every hibernating cycle
raises `AttributeError` and falls into the generic handler's fixed
30-second backoff; moreover the whole monitoring loop sits after the
infinite loop at main.py lines 46-75 and is unreachable dead code.
`next_start` stands for the value that call was intended to produce (epoch
seconds or `None`), `proximity_buffer_minutes` is
`MATCH_PROXIMITY_BUFFER_MINUTES` and `hibernation` is
`HIBERNATION_POLL_INTERVAL_SECONDS`. -/
def hibernationSleep (next_start : Option Int) (now : Int)
    (proximity_buffer_minutes : Int) (hibernation : Int) : Int :=
  match next_start with
  | none => hibernation
  | some t =>
    let wake_up_time := t - proximity_buffer_minutes * 60
    let time_to_wait := wake_up_time - now
    if 0 < time_to_wait then min time_to_wait hibernation
    else hibernation

/-- The publish gate of the Active branch of `monitor_live_matches`
(main.py lines 112-116): a delta notification is attempted exactly when the
store call returned a truthy result, i.e. any event object — whether the
merge was accepted or not. -/
def publishGate (saveResult : SportsDB.DB × Option SportsDB.Event × SportsDB.Outcome) :
    Bool :=
  saveResult.2.1.isSome

end LiveMonitor

namespace Fixtures

open SportsDB

/-- A well-shaped normalized observation, as the normalizers emit. -/
def obs (t : Int) (h a : String) (lg : Option String) (st : String)
    (cgt : Option Int) (lu : Int) : NormalizedEvent :=
  { event_name := some (h ++ " vs " ++ a)
    sport_name := some "football"
    event_status := some st
    current_game_time := some cgt
    home_team_name := some h
    away_team_name := some a
    home_score := some (some 0)
    away_score := some (some 1)
    league_name := some (some "Liga")
    league_id := some lg
    event_timestamp := some t
    last_updated_timestamp := some lu
    statistics := some (some "stats") }

def pair (s i : String) : SourceData :=
  { source_name := some s, source_event_id := some i }

/-- Store after three upserts from the empty store: two distinct matches
with NULL `league_id`, then a newer observation for the first provider pair
whose normalized fields coincide with the second match. -/
def dbDupKey : DB :=
  applyAll emptyDB
    [(obs 100 "H1" "A1" none "scheduled" none 1, pair "p" "x"),
     (obs 200 "H2" "A2" none "scheduled" none 1, pair "q" "y"),
     (obs 200 "H2" "A2" none "scheduled" none 5, pair "p" "x")]

/-- Store holding one match (league "10") mapped from provider pair
`("p", "x")`. -/
def dbOne : DB :=
  applyAll emptyDB [(obs 100 "H" "A" (some "10") "scheduled" none 3, pair "p" "x")]

/-- A far-future scheduled event row. -/
def eFar : Event :=
  { id := 0
    event_name := "H vs A"
    sport_name := "football"
    event_status := "scheduled"
    current_game_time := none
    home_team_name := "H"
    away_team_name := "A"
    home_score := some 0
    away_score := some 0
    league_name := none
    league_id := none
    event_timestamp := 1000000
    last_data_source := none
    last_updated_timestamp := 1
    statistics := none }

def dbFar : DB := { events := [eFar], mappings := [], nextId := 1 }

/-- The §8 scenario bucket: capacity 5, fill rate 1 token/s, full. -/
def fullBucket : AntiBlock.Bucket :=
  { capacity := 5, fill_rate := 1, tokens := 5, last_refill_time := 0 }

/-- The same bucket with no tokens left. -/
def drainedBucket : AntiBlock.Bucket :=
  { capacity := 5, fill_rate := 1, tokens := 0, last_refill_time := 0 }

/-- A fresher observation for the match held in `dbOne`, with the
`sport_name` key missing from the dict. -/
def obsNoSport : NormalizedEvent :=
  { obs 100 "H" "A" (some "10") "scheduled" none 5 with sport_name := none }

/-- A fresher live observation for the match held in `dbOne`. -/
def obsLive : NormalizedEvent :=
  obs 100 "H" "A" (some "10") "inprogress" (some 10) 7

/-- Two providers reporting the same match (league "10") under their own
event ids. -/
def obsTwoProviders : List (NormalizedEvent × SourceData) :=
  [(obs 100 "H" "A" (some "10") "scheduled" none 100, pair "p" "x"),
   (obs 100 "H" "A" (some "10") "scheduled" none 200, pair "q" "y")]

/-- Store after one upsert of the league-"L" match by provider pair
`("p", "x")` with timestamp 1. -/
def dbOneL : DB :=
  applyAll emptyDB [(obs 100 "H" "A" (some "L") "scheduled" none 1, pair "p" "x")]

/-- The same match reported by the same provider under two different
provider event ids, fresher observation second. -/
def dbSameProvAB : DB :=
  applyAll emptyDB
    [(obs 100 "H" "A" (some "L") "scheduled" none 1, pair "p" "x"),
     (obs 100 "H" "A" (some "L") "scheduled" none 2, pair "p" "y")]

/-- The two observations of `dbSameProvAB` applied in the other order. -/
def dbSameProvBA : DB :=
  applyAll emptyDB
    [(obs 100 "H" "A" (some "L") "scheduled" none 2, pair "p" "y"),
     (obs 100 "H" "A" (some "L") "scheduled" none 1, pair "p" "x")]

/-- The row `dbOne` holds (the creation of `obs 100 "H" "A" (some "10")
"scheduled" none 3` by provider `"p"`). -/
def eOne : Event :=
  { id := 0
    event_name := "H vs A"
    sport_name := "football"
    event_status := "scheduled"
    current_game_time := none
    home_team_name := "H"
    away_team_name := "A"
    home_score := some 0
    away_score := some 1
    league_name := some "Liga"
    league_id := some "10"
    event_timestamp := 100
    last_data_source := some "p"
    last_updated_timestamp := 3
    statistics := some "stats" }

/-- The row `dbOneL` holds (the creation of `obs 100 "H" "A" (some "L")
"scheduled" none 1` by provider `"p"`). -/
def eOneL : Event :=
  { id := 0
    event_name := "H vs A"
    sport_name := "football"
    event_status := "scheduled"
    current_game_time := none
    home_team_name := "H"
    away_team_name := "A"
    home_score := some 0
    away_score := some 1
    league_name := some "Liga"
    league_id := some "L"
    event_timestamp := 100
    last_data_source := some "p"
    last_updated_timestamp := 1
    statistics := some "stats" }

end Fixtures

/-! ## Helper lemmas -/

theorem pyminEqMin (a b : ℚ) : AntiBlock.pymin a b = min a b := by
  rw [AntiBlock.pymin, min_def]

theorem refillTokensEq (b : AntiBlock.Bucket) (now : ℚ) :
    AntiBlock.refill_tokens b now
      = { b with
          tokens := min b.capacity (b.tokens + (now - b.last_refill_time) * b.fill_rate)
          last_refill_time := now } := by
  rw [AntiBlock.refill_tokens, pyminEqMin]

/-- One `wait_before_request` step with a token available after the refill:
deduct one token, perform no sleep. -/
theorem waitSucc (b : AntiBlock.Bucket) (now : ℚ) (fuel : Nat)
    (h : 1 ≤ (AntiBlock.refill_tokens b now).tokens) :
    AntiBlock.wait_before_request b now (fuel + 1)
      = some ({ AntiBlock.refill_tokens b now with
                  tokens := (AntiBlock.refill_tokens b now).tokens - 1 }, now, []) := by
  rw [AntiBlock.wait_before_request, if_pos h]

/-- One `wait_before_request` step with no token available after the refill:
sleep `(1 - tokens) / fill_rate + 0.01` and succeed on the retry. -/
theorem waitRetry (b : AntiBlock.Bucket) (now : ℚ) (fuel : Nat)
    (hcap : 1 ≤ b.capacity) (hrate : 0 < b.fill_rate)
    (h : (AntiBlock.refill_tokens b now).tokens < 1) :
    AntiBlock.wait_before_request b now (fuel + 2)
      = some
        (let s := (1 - (AntiBlock.refill_tokens b now).tokens) / b.fill_rate + 1 / 100
         ({ AntiBlock.refill_tokens (AntiBlock.refill_tokens b now) (now + s) with
              tokens :=
                (AntiBlock.refill_tokens (AntiBlock.refill_tokens b now) (now + s)).tokens
                  - 1 },
          now + s, [s])) := by
  have hrate' : b.fill_rate ≠ 0 := ne_of_gt hrate
  show AntiBlock.wait_before_request b now ((fuel + 1) + 1) = _
  rw [AntiBlock.wait_before_request, if_neg (not_le.mpr h)]
  dsimp only
  have hfr : (AntiBlock.refill_tokens b now).fill_rate = b.fill_rate := rfl
  rw [hfr]
  have hone : 1 ≤ (AntiBlock.refill_tokens (AntiBlock.refill_tokens b now)
      (now + ((1 - (AntiBlock.refill_tokens b now).tokens) / b.fill_rate + 1 / 100))).tokens := by
    rw [refillTokensEq (AntiBlock.refill_tokens b now)
      (now + ((1 - (AntiBlock.refill_tokens b now).tokens) / b.fill_rate + 1 / 100))]
    have hlast : (AntiBlock.refill_tokens b now).last_refill_time = now := rfl
    have hcap2 : (AntiBlock.refill_tokens b now).capacity = b.capacity := rfl
    show 1 ≤ min (AntiBlock.refill_tokens b now).capacity
      ((AntiBlock.refill_tokens b now).tokens
        + (now + ((1 - (AntiBlock.refill_tokens b now).tokens) / b.fill_rate + 1 / 100)
            - (AntiBlock.refill_tokens b now).last_refill_time)
          * (AntiBlock.refill_tokens b now).fill_rate)
    rw [hlast, hcap2, hfr]
    have harith : (AntiBlock.refill_tokens b now).tokens
        + (now + ((1 - (AntiBlock.refill_tokens b now).tokens) / b.fill_rate + 1 / 100) - now)
          * b.fill_rate
        = 1 + b.fill_rate / 100 := by
      field_simp
      ring
    rw [harith]
    refine le_min hcap ?_
    have : (0 : ℚ) < b.fill_rate / 100 := by positivity
    linarith
  rw [waitSucc (AntiBlock.refill_tokens b now)
    (now + ((1 - (AntiBlock.refill_tokens b now).tokens) / b.fill_rate + 1 / 100)) fuel hone]
  rfl

/-! ## Claim theorems -/

/-- C4 (evidence for the divergence): `get_events_for_monitoring` returns a
`scheduled` event whose start instant is far beyond `now + buffer` — with
`now = 0` and a 30-minute buffer, an event starting at instant 1000000 is
still returned, because the query filter only bounds start instants from
below (`event_timestamp >= now - buffer`).  The claim, in contrast,
restricts the scheduled events to those within the buffer of now.  (The
Python function in fact cannot run at all: `timedelta` is not imported in
`data_access.py`, so every call raises `NameError`.) -/
theorem claim_C4_monitoring_far_future_included :
    SportsDB.get_events_for_monitoring Fixtures.dbFar 0 30 = [Fixtures.eFar]
      ∧ Fixtures.eFar.event_status = "scheduled"
      ∧ 0 + 30 * 60 < Fixtures.eFar.event_timestamp := by
  decide

/-- C6 (evidence for the code bug): the sleep-duration computation
*as written* in the hibernating branch (main.py lines 150-174) matches the
claim exactly — `min (wake - now) hibernation_interval` when a next
scheduled start `t` exists and the wake time `t - buffer` is still in the
future, and the hibernation interval when the wake time is now or past or
when no future scheduled event exists.  The running program, however,
never computes any of these durations: the branch opens by calling
`data_access.get_next_scheduled_match_start_time()`, which does not exist
on `DataAccess`, so every hibernating cycle raises `AttributeError` and
sleeps the generic 30-second backoff instead — and the loop itself is
unreachable dead code (see `hibernationSleep`'s doc comment). -/
theorem claim_C6_hibernation_sleep (t now buf hib : Int) :
    (now < t - buf * 60 →
      LiveMonitor.hibernationSleep (some t) now buf hib = min (t - buf * 60 - now) hib)
    ∧ (t - buf * 60 ≤ now →
      LiveMonitor.hibernationSleep (some t) now buf hib = hib)
    ∧ LiveMonitor.hibernationSleep none now buf hib = hib := by
  refine ⟨fun h => ?_, fun h => ?_, rfl⟩
  · simp only [LiveMonitor.hibernationSleep]
    rw [if_pos (by omega)]
  · simp only [LiveMonitor.hibernationSleep]
    rw [if_neg (by omega)]

/-- Witness for C6 at `t = 10000`, `now = 0`, buffer 30 min, hibernation
300 s. -/
theorem claim_C6_hibernation_sleep_witness :
    (0 : Int) < 10000 - 30 * 60
      ∧ LiveMonitor.hibernationSleep (some 10000) 0 30 300 = min (10000 - 30 * 60 - 0) 300 :=
  ⟨by decide, (claim_C6_hibernation_sleep 10000 0 30 300).1 (by decide)⟩

/-- C7 (evidence for the divergence): an observation that ties the stored
`last_updated_timestamp` without the live tie-break leaves the stored
record unchanged (`Outcome.unchanged`), yet the store call still returns
the event object, so the monitor's publish gate — which tests only the
truthiness of the store result — would publish a delta notification for it.
(In the shipped `live-monitor/main.py` the situation is worse still: the
monitoring loop calls `data_access.save_match_data`, which does not exist
on `DataAccess`, and the loop itself is unreachable dead code, so no
notification is ever published.) -/
theorem claim_C7_publish_gate_on_unchanged :
    (SportsDB.save_or_update_event Fixtures.dbOne
        (Fixtures.obs 100 "H" "A" (some "10") "scheduled" none 3)
        (Fixtures.pair "p" "x")).2.2 = SportsDB.Outcome.unchanged
      ∧ LiveMonitor.publishGate (SportsDB.save_or_update_event Fixtures.dbOne
        (Fixtures.obs 100 "H" "A" (some "10") "scheduled" none 3)
        (Fixtures.pair "p" "x")) = true := by
  decide

/-- C10: constructing the token bucket fails with `ValueError` iff
`capacity <= 0` or `fill_rate <= 0`; on success the token count starts at
`initial_tokens` when supplied — without clamping — and at `capacity`
otherwise; a token count above capacity is only clamped down at the first
refill. -/
theorem claim_C10_token_bucket_init (c r : ℚ) (i : Option ℚ) (now : ℚ) :
    ((∃ e, AntiBlock.init c r i now = Except.error e) ↔ (c ≤ 0 ∨ r ≤ 0))
      ∧ (∀ b, AntiBlock.init c r i now = Except.ok b →
          b.capacity = c ∧ b.fill_rate = r ∧ b.tokens = i.getD c ∧ b.last_refill_time = now)
      ∧ (∀ b now', AntiBlock.init c r i now = Except.ok b →
          b.capacity ≤ b.tokens → b.last_refill_time ≤ now' →
          (AntiBlock.refill_tokens b now').tokens = b.capacity) := by
  by_cases h : c ≤ 0 ∨ r ≤ 0
  · refine ⟨⟨fun _ => h, fun _ => ⟨"ValueError", ?_⟩⟩, fun b hb => ?_, fun b now' hb _ _ => ?_⟩
    · simp only [AntiBlock.init, if_pos h]
    · simp only [AntiBlock.init, if_pos h] at hb
      cases hb
    · simp only [AntiBlock.init, if_pos h] at hb
      cases hb
  · refine ⟨⟨?_, fun hc => absurd hc h⟩, fun b hb => ?_, fun b now' hb hcap hnow => ?_⟩
    · rintro ⟨e, he⟩
      simp only [AntiBlock.init, if_neg h] at he
      cases he
    · simp only [AntiBlock.init, if_neg h] at hb
      cases hb
      exact ⟨rfl, rfl, rfl, rfl⟩
    · simp only [AntiBlock.init, if_neg h] at hb
      cases hb
      push_neg at h
      have hcap' : c ≤ i.getD c := hcap
      have hnow' : now ≤ now' := hnow
      rw [refillTokensEq]
      show min c (i.getD c + (now' - now) * r) = c
      have h1 : (0 : ℚ) ≤ (now' - now) * r :=
        mul_nonneg (by linarith) (le_of_lt h.2)
      exact min_eq_left (by linarith)

/-- Witness for C10: a valid construction with `initial_tokens = 10`
exceeding `capacity = 5`, clamped to capacity at the first refill. -/
theorem claim_C10_token_bucket_init_witness :
    (AntiBlock.refill_tokens
        { capacity := 5, fill_rate := 1, tokens := 10, last_refill_time := 0 } 2).tokens = 5 :=
  (claim_C10_token_bucket_init 5 1 (some 10) 0).2.2
    { capacity := 5, fill_rate := 1, tokens := 10, last_refill_time := 0 } 2
    rfl (by norm_num) (by norm_num)

/-- C5: one `wait_before_request` call first refills the bucket to
`min capacity (tokens + elapsed * fill_rate)` advancing the refill instant;
if at least one token is then available, exactly one token is deducted and
the call returns without sleeping; otherwise it sleeps
`(1 - tokens) / fill_rate` plus the fixed `0.01` margin and the retry
succeeds (assuming the sleep advances the clock by exactly its duration).
Scenario: capacity 5, fill rate 1 token/s, full bucket — five immediate
calls succeed with no sleep, and the sixth sleeps `1.01 ≈ 1` second. -/
theorem claim_C5_wait_before_request :
    (∀ (b : AntiBlock.Bucket) (now : ℚ),
      AntiBlock.refill_tokens b now
        = { b with
            tokens := min b.capacity (b.tokens + (now - b.last_refill_time) * b.fill_rate)
            last_refill_time := now })
    ∧ (∀ (b : AntiBlock.Bucket) (now : ℚ) (fuel : Nat),
        1 ≤ (AntiBlock.refill_tokens b now).tokens →
        AntiBlock.wait_before_request b now (fuel + 1)
          = some ({ AntiBlock.refill_tokens b now with
                      tokens := (AntiBlock.refill_tokens b now).tokens - 1 }, now, []))
    ∧ (∀ (b : AntiBlock.Bucket) (now : ℚ),
        1 ≤ b.capacity → 0 < b.fill_rate →
        (AntiBlock.refill_tokens b now).tokens < 1 →
        AntiBlock.wait_before_request b now 2
          = some
            (let s := (1 - (AntiBlock.refill_tokens b now).tokens) / b.fill_rate + 1 / 100
             ({ AntiBlock.refill_tokens (AntiBlock.refill_tokens b now) (now + s) with
                  tokens :=
                    (AntiBlock.refill_tokens (AntiBlock.refill_tokens b now) (now + s)).tokens
                      - 1 },
              now + s, [s])))
    ∧ AntiBlock.acquireSeq Fixtures.fullBucket 0 5
        = some ({ Fixtures.fullBucket with tokens := 0 }, 0, [])
    ∧ AntiBlock.acquireSeq Fixtures.fullBucket 0 6
        = some ({ capacity := 5, fill_rate := 1, tokens := 1 / 100,
                  last_refill_time := 101 / 100 },
                101 / 100, [101 / 100]) := by
  refine ⟨refillTokensEq, waitSucc, fun b now hcap hrate h => waitRetry b now 0 hcap hrate h,
    ?_, ?_⟩
  · norm_num [AntiBlock.acquireSeq, AntiBlock.wait_before_request, AntiBlock.refill_tokens,
      AntiBlock.pymin, Fixtures.fullBucket]
  · norm_num [AntiBlock.acquireSeq, AntiBlock.wait_before_request, AntiBlock.refill_tokens,
      AntiBlock.pymin, Fixtures.fullBucket]

/-- Witness for C5: a call on a full bucket deducts one token with no
sleep; a call on a drained bucket sleeps `(1 - 0) / 1 + 0.01` and succeeds
on the retry. -/
theorem claim_C5_wait_before_request_witness :
    (1 : ℚ) ≤ (AntiBlock.refill_tokens Fixtures.fullBucket 0).tokens
      ∧ AntiBlock.wait_before_request Fixtures.fullBucket 0 3
          = some ({ AntiBlock.refill_tokens Fixtures.fullBucket 0 with
                      tokens := (AntiBlock.refill_tokens Fixtures.fullBucket 0).tokens - 1 },
                  0, [])
      ∧ AntiBlock.wait_before_request Fixtures.drainedBucket 0 2
          = some
            (let s := (1 - (AntiBlock.refill_tokens Fixtures.drainedBucket 0).tokens)
                / Fixtures.drainedBucket.fill_rate + 1 / 100
             ({ AntiBlock.refill_tokens
                  (AntiBlock.refill_tokens Fixtures.drainedBucket 0) (0 + s) with
                  tokens :=
                    (AntiBlock.refill_tokens
                      (AntiBlock.refill_tokens Fixtures.drainedBucket 0) (0 + s)).tokens
                      - 1 },
              0 + s, [s])) :=
  ⟨by norm_num [AntiBlock.refill_tokens, AntiBlock.pymin, Fixtures.fullBucket],
   claim_C5_wait_before_request.2.1 Fixtures.fullBucket 0 2
     (by norm_num [AntiBlock.refill_tokens, AntiBlock.pymin, Fixtures.fullBucket]),
   claim_C5_wait_before_request.2.2.1 Fixtures.drainedBucket 0
     (by norm_num [Fixtures.drainedBucket]) (by norm_num [Fixtures.drainedBucket])
     (by norm_num [AntiBlock.refill_tokens, AntiBlock.pymin, Fixtures.drainedBucket])⟩

/-- `resolveConflict` returns the pre-transaction store and, when the
re-read finds an event with the incoming dedup key, that event with the
`conflictResolved` outcome. -/
theorem resolveConflictSome (db : SportsDB.DB) (ts : Int) (hm aw : String)
    (lg : Option String) (e : SportsDB.Event)
    (h : SportsDB.findByKey db ts hm aw lg = some e) :
    SportsDB.resolveConflict db ts hm aw lg = (db, some e, SportsDB.Outcome.conflictResolved) := by
  rw [SportsDB.resolveConflict, h]

/-- Every `save_or_update_event` call either is, as a whole, the
rollback-and-re-read of `resolveConflict` on the incoming dedup key, or
ends in an outcome other than the two `IntegrityError` conflict outcomes. -/
theorem saveConflictOrNot (db : SportsDB.DB) (n : SportsDB.NormalizedEvent)
    (m : SportsDB.SourceData) :
    SportsDB.save_or_update_event db n m
        = SportsDB.resolveConflict db (n.event_timestamp.getD 0) (n.home_team_name.getD "")
            (n.away_team_name.getD "") n.league_id.join
      ∨ ((SportsDB.save_or_update_event db n m).2.2 ≠ SportsDB.Outcome.conflictResolved
          ∧ (SportsDB.save_or_update_event db n m).2.2 ≠ SportsDB.Outcome.conflictUnresolved) := by
  unfold SportsDB.save_or_update_event
  split
  · dsimp only
    split
    · split
      · exact Or.inr ⟨by simp, by simp⟩
      · split
        · split
          · exact Or.inr ⟨by simp, by simp⟩
          · exact Or.inl rfl
        · split
          · exact Or.inr ⟨by simp, by simp⟩
          · exact Or.inl rfl
    · split
      · split
        · split
          · exact Or.inr ⟨by simp, by simp⟩
          · exact Or.inl rfl
        · split
          · exact Or.inr ⟨by simp, by simp⟩
          · exact Or.inl rfl
      · split
        · -- NOT NULL flush failure: the re-read by the same key repeats the
          -- dedup lookup that has just returned `none`
          refine Or.inl ?_
          rw [SportsDB.resolveConflict]
          split
          · simp_all
          · rfl
        · split
          · exact Or.inr ⟨by simp, by simp⟩
          · exact Or.inl rfl
  · exact Or.inr ⟨by simp, by simp⟩

/-- Whenever a `save_or_update_event` call ends in one of the two
`IntegrityError` conflict outcomes, the whole call is the rollback-and-
re-read of `resolveConflict` on the incoming dedup key. -/
theorem saveConflictShape (db : SportsDB.DB) (n : SportsDB.NormalizedEvent)
    (m : SportsDB.SourceData)
    (hconf : (SportsDB.save_or_update_event db n m).2.2 = SportsDB.Outcome.conflictResolved
        ∨ (SportsDB.save_or_update_event db n m).2.2 = SportsDB.Outcome.conflictUnresolved) :
    SportsDB.save_or_update_event db n m
      = SportsDB.resolveConflict db (n.event_timestamp.getD 0) (n.home_team_name.getD "")
          (n.away_team_name.getD "") n.league_id.join := by
  rcases saveConflictOrNot db n m with h | ⟨h1, h2⟩
  · exact h
  · rcases hconf with h | h
    · exact absurd h h1
    · exact absurd h h2

theorem truthyStrIff (s : Option String) :
    SportsDB.truthyStr s = true ↔ ∃ v, s = some v ∧ v ≠ "" := by
  cases s <;> simp [SportsDB.truthyStr]

theorem truthyIntIff (i : Option Int) :
    SportsDB.truthyInt i = true ↔ ∃ v, i = some v ∧ v ≠ 0 := by
  cases i <;> simp [SportsDB.truthyInt]

/-- When validation fails, the call returns the failure triple without
touching the store. -/
theorem saveValidationFalse (db : SportsDB.DB) (n : SportsDB.NormalizedEvent)
    (m : SportsDB.SourceData) (hv : SportsDB.validateInputs n m = false) :
    SportsDB.save_or_update_event db n m = (db, none, SportsDB.Outcome.validationFailed) := by
  unfold SportsDB.save_or_update_event
  rw [if_neg (by simp [hv])]

/-- When validation passes, no branch of the call produces the
`validationFailed` outcome. -/
theorem saveNotValidation (db : SportsDB.DB) (n : SportsDB.NormalizedEvent)
    (m : SportsDB.SourceData) (hv : SportsDB.validateInputs n m = true) :
    (SportsDB.save_or_update_event db n m).2.2 ≠ SportsDB.Outcome.validationFailed := by
  intro h
  unfold SportsDB.save_or_update_event at h
  rw [if_pos hv] at h
  dsimp only at h
  split at h
  · split at h
    · simp at h
    · split at h
      · split at h
        · simp at h
        · rw [SportsDB.resolveConflict] at h
          split at h <;> simp at h
      · split at h
        · simp at h
        · rw [SportsDB.resolveConflict] at h
          split at h <;> simp at h
  · split at h
    · split at h
      · split at h
        · simp at h
        · rw [SportsDB.resolveConflict] at h
          split at h <;> simp at h
      · split at h
        · simp at h
        · rw [SportsDB.resolveConflict] at h
          split at h <;> simp at h
    · split at h
      · simp at h
      · split at h
        · simp at h
        · rw [SportsDB.resolveConflict] at h
          split at h <;> simp at h

/-- C8 (counterexample to the claim as stated): an observation whose
`sport_name` is absent — one of the fields the claim lists as required —
reaches an existing merge target with a newer timestamp and the merge is
attempted and accepted (`Outcome.updated`) instead of failing. -/
theorem claim_C8_counterexample_sport_missing :
    Fixtures.obsNoSport.sport_name = none
      ∧ (SportsDB.save_or_update_event Fixtures.dbOne Fixtures.obsNoSport
          (Fixtures.pair "p" "x")).2.2 = SportsDB.Outcome.updated := by
  decide

/-- C8 (amended): `save_or_update_event` returns the failure outcome
without attempting the merge iff one of the start instant, home team name,
away team name, provider name, provider event id, or incoming
`last_updated_timestamp` is absent or Python-falsy (empty string, zero);
the event name and sport are not checked. -/
theorem claim_C8_validation (db : SportsDB.DB) (n : SportsDB.NormalizedEvent)
    (m : SportsDB.SourceData) :
    (SportsDB.save_or_update_event db n m).2.2 = SportsDB.Outcome.validationFailed
      ↔ ¬(n.event_timestamp.isSome = true
          ∧ (∃ v, n.home_team_name = some v ∧ v ≠ "")
          ∧ (∃ v, n.away_team_name = some v ∧ v ≠ "")
          ∧ (∃ v, m.source_name = some v ∧ v ≠ "")
          ∧ (∃ v, m.source_event_id = some v ∧ v ≠ "")
          ∧ (∃ v, n.last_updated_timestamp = some v ∧ v ≠ 0)) := by
  have hval : SportsDB.validateInputs n m = true
      ↔ (n.event_timestamp.isSome = true
          ∧ (∃ v, n.home_team_name = some v ∧ v ≠ "")
          ∧ (∃ v, n.away_team_name = some v ∧ v ≠ "")
          ∧ (∃ v, m.source_name = some v ∧ v ≠ "")
          ∧ (∃ v, m.source_event_id = some v ∧ v ≠ "")
          ∧ (∃ v, n.last_updated_timestamp = some v ∧ v ≠ 0)) := by
    rw [SportsDB.validateInputs]
    simp only [Bool.and_eq_true, truthyStrIff, truthyIntIff, and_assoc]
  constructor
  · intro h
    intro hc
    exact saveNotValidation db n m (hval.mpr hc) h
  · intro h
    have hv : SportsDB.validateInputs n m = false := by
      rcases Bool.eq_false_or_eq_true (SportsDB.validateInputs n m) with h0 | h1
      · exact absurd (hval.mp h0) h
      · exact h1
    rw [saveValidationFalse db n m hv]

/-- C9: whenever the upsert is interrupted by a uniqueness violation at
commit and the canonical event with the incoming dedup key already exists
(the claim's premise: a concurrent writer created the row first), the
transaction is rolled back — the store is exactly the pre-call store, no
partial write persists — the existing event is re-read and returned, and
the call does not yield a failure result. -/
theorem claim_C9_conflict_resolution (db : SportsDB.DB) (n : SportsDB.NormalizedEvent)
    (m : SportsDB.SourceData) (e : SportsDB.Event)
    (hconf : (SportsDB.save_or_update_event db n m).2.2 = SportsDB.Outcome.conflictResolved
        ∨ (SportsDB.save_or_update_event db n m).2.2 = SportsDB.Outcome.conflictUnresolved)
    (hexists : SportsDB.findByKey db (n.event_timestamp.getD 0) (n.home_team_name.getD "")
        (n.away_team_name.getD "") n.league_id.join = some e) :
    (SportsDB.save_or_update_event db n m).1 = db
      ∧ (SportsDB.save_or_update_event db n m).2.1 = some e
      ∧ (SportsDB.save_or_update_event db n m).2.2 = SportsDB.Outcome.conflictResolved
      ∧ e ∈ db.events := by
  have hshape := saveConflictShape db n m hconf
  rw [hshape, resolveConflictSome db _ _ _ _ e hexists]
  exact ⟨rfl, rfl, rfl, List.mem_of_find?_eq_some hexists⟩

/-- Witness for C9: provider `"p"` reports the match already held in
`dbOne` under a second provider event id `"y"`; inserting the second
mapping for `(event, "p")` violates `uq_event_id_source`, the transaction
rolls back and the existing row is returned. -/
theorem claim_C9_conflict_resolution_witness :
    (SportsDB.save_or_update_event Fixtures.dbOne
        (Fixtures.obs 100 "H" "A" (some "10") "scheduled" none 9)
        (Fixtures.pair "p" "y")).1 = Fixtures.dbOne
      ∧ (SportsDB.save_or_update_event Fixtures.dbOne
          (Fixtures.obs 100 "H" "A" (some "10") "scheduled" none 9)
          (Fixtures.pair "p" "y")).2.1 = some Fixtures.eOne
      ∧ (SportsDB.save_or_update_event Fixtures.dbOne
          (Fixtures.obs 100 "H" "A" (some "10") "scheduled" none 9)
          (Fixtures.pair "p" "y")).2.2 = SportsDB.Outcome.conflictResolved
      ∧ Fixtures.eOne ∈ Fixtures.dbOne.events :=
  claim_C9_conflict_resolution Fixtures.dbOne
    (Fixtures.obs 100 "H" "A" (some "10") "scheduled" none 9)
    (Fixtures.pair "p" "y") Fixtures.eOne (by decide) (by decide)

/-! ## List-level lemmas for the store invariants -/

theorem pairwiseOK_iff (f : α → α → Bool) (l : List α) :
    SportsDB.pairwiseOK f l = true ↔ List.Pairwise (fun a b => f a b = true) l := by
  induction l with
  | nil => simp [SportsDB.pairwiseOK]
  | cons x xs ih =>
    simp [SportsDB.pairwiseOK, List.pairwise_cons, ih, List.all_eq_true, and_comm]

theorem pairwiseOK_rel_of_mem {f : α → α → Bool} {l : List α} {a b : α}
    (hp : SportsDB.pairwiseOK f l = true) (ha : a ∈ l) (hb : b ∈ l) :
    a = b ∨ f a b = true ∨ f b a = true := by
  induction l with
  | nil => cases ha
  | cons x xs ih =>
    rw [SportsDB.pairwiseOK, Bool.and_eq_true, List.all_eq_true] at hp
    rcases List.mem_cons.mp ha with rfl | ha'
    · rcases List.mem_cons.mp hb with rfl | hb'
      · exact Or.inl rfl
      · exact Or.inr (Or.inl (hp.1 b hb'))
    · rcases List.mem_cons.mp hb with rfl | hb'
      · exact Or.inr (Or.inr (hp.1 a ha'))
      · exact ih hp.2 ha' hb'

theorem find?_eq_some_unique {p : α → Bool} {l : List α} {a : α}
    (ha : a ∈ l) (hpa : p a = true)
    (huniq : ∀ x ∈ l, p x = true → x = a) : l.find? p = some a := by
  induction l with
  | nil => cases ha
  | cons x xs ih =>
    by_cases hx : p x = true
    · rw [List.find?_cons_of_pos _ hx, huniq x (List.mem_cons_self x xs) hx]
    · rw [List.find?_cons_of_neg _ hx]
      rcases List.mem_cons.mp ha with rfl | ha'
      · exact absurd hpa hx
      · exact ih ha' (fun y hy hpy => huniq y (List.mem_cons_of_mem x hy) hpy)

theorem pairwiseOK_append_singleton_iff (f : α → α → Bool) (l : List α) (a : α) :
    SportsDB.pairwiseOK f (l ++ [a]) = true
      ↔ SportsDB.pairwiseOK f l = true ∧ ∀ x ∈ l, f x a = true := by
  rw [pairwiseOK_iff, List.pairwise_append, ← pairwiseOK_iff]
  simp

theorem all_congr_mem {p q : α → Bool} {l : List α}
    (h : ∀ x ∈ l, p x = q x) : l.all p = l.all q := by
  induction l with
  | nil => rfl
  | cons x xs ih =>
    rw [List.all_cons, List.all_cons, h x (List.mem_cons_self x xs),
      ih (fun y hy => h y (List.mem_cons_of_mem x hy))]

theorem any_congr_mem {p q : α → Bool} {l : List α}
    (h : ∀ x ∈ l, p x = q x) : l.any p = l.any q := by
  induction l with
  | nil => rfl
  | cons x xs ih =>
    rw [List.any_cons, List.any_cons, h x (List.mem_cons_self x xs),
      ih (fun y hy => h y (List.mem_cons_of_mem x hy))]

theorem pairwiseOK_map_congr {f : α → α → Bool} {g : α → α} {l : List α}
    (h : ∀ x ∈ l, ∀ y ∈ l, f (g x) (g y) = f x y) :
    SportsDB.pairwiseOK f (l.map g) = SportsDB.pairwiseOK f l := by
  induction l with
  | nil => rfl
  | cons x xs ih =>
    simp only [List.map_cons, SportsDB.pairwiseOK, List.all_map, Function.comp_def]
    rw [all_congr_mem (fun y hy =>
      h x (List.mem_cons_self x xs) y (List.mem_cons_of_mem x hy)),
      ih (fun a ha b hb =>
        h a (List.mem_cons_of_mem x ha) b (List.mem_cons_of_mem x hb))]

/-! ## Store lemmas -/

theorem wf_iff (db : SportsDB.DB) :
    SportsDB.wf db = true
      ↔ SportsDB.idsUnique db.events = true
        ∧ db.mappings.all (fun mp => db.events.any (fun e => e.id == mp.event_id)) = true
        ∧ db.events.all (fun e => e.id < db.nextId) = true
        ∧ SportsDB.constraintsOK db = true := by
  rw [SportsDB.wf]
  simp only [Bool.and_eq_true, and_assoc]

theorem constraintsOK_iff (db : SportsDB.DB) :
    SportsDB.constraintsOK db = true
      ↔ SportsDB.eventsOK db.events = true ∧ SportsDB.mappingsOK db.mappings = true := by
  rw [SportsDB.constraintsOK]
  simp [Bool.and_eq_true]

theorem event_mem_id_eq {l : List SportsDB.Event} (hu : SportsDB.idsUnique l = true)
    {a b : SportsDB.Event} (ha : a ∈ l) (hb : b ∈ l) (h : a.id = b.id) : a = b := by
  rcases pairwiseOK_rel_of_mem hu ha hb with h1 | h1 | h1
  · exact h1
  · exact absurd h (by simpa using h1)
  · exact absurd h.symm (by simpa using h1)

theorem mapping_mem_pair_eq {l : List SportsDB.Mapping} (hm : SportsDB.mappingsOK l = true)
    {a b : SportsDB.Mapping} (ha : a ∈ l) (hb : b ∈ l)
    (hs : a.source_name = b.source_name) (hi : a.source_event_id = b.source_event_id) :
    a = b := by
  rcases pairwiseOK_rel_of_mem hm ha hb with h1 | h1 | h1
  · exact h1
  · have hc : SportsDB.mappingClash a b = true := by
      simp [SportsDB.mappingClash, hs, hi]
    simp [hc] at h1
  · have hc : SportsDB.mappingClash b a = true := by
      simp [SportsDB.mappingClash, hs, hi]
    simp [hc] at h1

theorem findMapping_eq_some {db : SportsDB.DB} {mp : SportsDB.Mapping}
    (hm : SportsDB.mappingsOK db.mappings = true) (hmem : mp ∈ db.mappings)
    {src sid : String} (hs : mp.source_name = src) (hi : mp.source_event_id = sid) :
    SportsDB.findMapping db src sid = some mp := by
  apply find?_eq_some_unique hmem (by simp [hs, hi])
  intro x hx hpx
  simp only [Bool.and_eq_true, beq_iff_eq] at hpx
  exact mapping_mem_pair_eq hm hx hmem (hpx.1.trans hs.symm) (hpx.2.trans hi.symm)

theorem findEventById_eq_some {l : List SportsDB.Event} {e : SportsDB.Event}
    (hu : SportsDB.idsUnique l = true) (hmem : e ∈ l) {k : Nat} (hk : e.id = k) :
    l.find? (fun x => x.id == k) = some e := by
  apply find?_eq_some_unique hmem (by simp [hk])
  intro x hx hpx
  simp only [beq_iff_eq] at hpx
  exact event_mem_id_eq hu hx hmem (by rw [hpx, hk])

theorem mkEvent_id {nid : Nat} {n : SportsDB.NormalizedEvent} {src : String} {lu : Int}
    {e : SportsDB.Event} (h : SportsDB.mkEvent nid n src lu = some e) : e.id = nid := by
  unfold SportsDB.mkEvent at h
  split at h
  · cases h
    rfl
  · cases h

theorem eventKeyClash_congr {a c b d : SportsDB.Event}
    (h1 : SportsDB.key4 a = SportsDB.key4 c) (h2 : SportsDB.key4 b = SportsDB.key4 d) :
    SportsDB.eventKeyClash a b = SportsDB.eventKeyClash c d := by
  simp only [SportsDB.key4, Prod.mk.injEq] at h1 h2
  obtain ⟨h11, h12, h13, h14⟩ := h1
  obtain ⟨h21, h22, h23, h24⟩ := h2
  rw [SportsDB.eventKeyClash, SportsDB.eventKeyClash, h11, h12, h13, h14, h21, h22, h23, h24]

theorem replaceEvent_point {E e' x : SportsDB.Event} (hid : e'.id = E.id)
    (hu : SportsDB.idsUnique l = true) (hmem : E ∈ l) (hx : x ∈ l) :
    (if x.id == E.id then e' else x).id = x.id := by
  by_cases h : x.id = E.id
  · rw [if_pos (by simp [h]), hid, h]
  · rw [if_neg (by simp [h])]

theorem idsUnique_replaceEvent {l : List SportsDB.Event} {E e' : SportsDB.Event}
    (hid : e'.id = E.id) (hu : SportsDB.idsUnique l = true) (hmem : E ∈ l) :
    SportsDB.idsUnique (SportsDB.replaceEvent l E.id e') = SportsDB.idsUnique l := by
  rw [SportsDB.replaceEvent, SportsDB.idsUnique, SportsDB.idsUnique]
  apply pairwiseOK_map_congr
  intro x hx y hy
  rw [replaceEvent_point hid hu hmem hx, replaceEvent_point hid hu hmem hy]

theorem all_id_replaceEvent {l : List SportsDB.Event} {E e' : SportsDB.Event}
    (hid : e'.id = E.id) (hu : SportsDB.idsUnique l = true) (hmem : E ∈ l)
    (q : Nat → Bool) :
    (SportsDB.replaceEvent l E.id e').all (fun e => q e.id) = l.all (fun e => q e.id) := by
  rw [SportsDB.replaceEvent, List.all_map]
  simp only [Function.comp_def]
  exact all_congr_mem (fun x hx => by rw [replaceEvent_point hid hu hmem hx])

theorem any_id_replaceEvent {l : List SportsDB.Event} {E e' : SportsDB.Event}
    (hid : e'.id = E.id) (hu : SportsDB.idsUnique l = true) (hmem : E ∈ l)
    (q : Nat → Bool) :
    (SportsDB.replaceEvent l E.id e').any (fun e => q e.id) = l.any (fun e => q e.id) := by
  rw [SportsDB.replaceEvent, List.any_map]
  simp only [Function.comp_def]
  exact any_congr_mem (fun x hx => by rw [replaceEvent_point hid hu hmem hx])

theorem replaceEvent_self {l : List SportsDB.Event} {e : SportsDB.Event}
    (hu : SportsDB.idsUnique l = true) (hmem : e ∈ l) :
    SportsDB.replaceEvent l e.id e = l := by
  rw [SportsDB.replaceEvent]
  have hpt : ∀ x ∈ l, (if x.id == e.id then e else x) = x := by
    intro x hx
    by_cases h : x.id = e.id
    · rw [if_pos (by simp [h])]
      exact event_mem_id_eq hu hmem hx h.symm
    · rw [if_neg (by simp [h])]
  rw [List.map_congr_left hpt, List.map_id']

theorem eventsOK_replaceEvent {l : List SportsDB.Event} {E e' : SportsDB.Event}
    (hu : SportsDB.idsUnique l = true) (hmem : E ∈ l)
    (hkey : SportsDB.key4 e' = SportsDB.key4 E) (hid : e'.id = E.id) :
    SportsDB.eventsOK (SportsDB.replaceEvent l E.id e') = SportsDB.eventsOK l := by
  rw [SportsDB.replaceEvent, SportsDB.eventsOK, SportsDB.eventsOK]
  apply pairwiseOK_map_congr
  intro x hx y hy
  have hpt : ∀ z ∈ l, SportsDB.key4 (if z.id == E.id then e' else z) = SportsDB.key4 z := by
    intro z hz
    by_cases h : z.id = E.id
    · rw [if_pos (by simp [h])]
      rw [hkey, event_mem_id_eq hu hmem hz h.symm]
    · rw [if_neg (by simp [h])]
  rw [eventKeyClash_congr (hpt x hx) (hpt y hy)]

theorem any_id_of_mem {l : List SportsDB.Event} {e : SportsDB.Event} (h : e ∈ l)
    {k : Nat} (hk : e.id = k) : l.any (fun x => x.id == k) = true :=
  List.any_eq_true.mpr ⟨e, h, by simp [hk]⟩

/-- Preservation of well-formedness by an in-place update (mapping already
present, no new mapping row). -/
theorem wf_update_nomap (db : SportsDB.DB) (ev ev' : SportsDB.Event)
    (hwf : SportsDB.wf db = true) (hmem : ev ∈ db.events) (hid : ev'.id = ev.id)
    (hc : SportsDB.constraintsOK { db with
        events := SportsDB.replaceEvent db.events ev.id ev' } = true) :
    SportsDB.wf { db with events := SportsDB.replaceEvent db.events ev.id ev' } = true := by
  obtain ⟨hu, hfk, hbd, _⟩ := (wf_iff db).mp hwf
  rw [wf_iff]
  dsimp only
  refine ⟨?_, ?_, ?_, hc⟩
  · rw [idsUnique_replaceEvent hid hu hmem]
    exact hu
  · rw [all_congr_mem (fun mp' _ =>
      any_id_replaceEvent hid hu hmem (fun i => i == mp'.event_id))]
    exact hfk
  · rw [all_id_replaceEvent hid hu hmem (fun i => decide (i < db.nextId))]
    exact hbd

/-- Preservation of well-formedness by an in-place update together with
the creation of a new mapping row pointing at the updated event. -/
theorem wf_update_addmap (db : SportsDB.DB) (ev ev' : SportsDB.Event) (src sid : String)
    (hwf : SportsDB.wf db = true) (hmem : ev ∈ db.events) (hid : ev'.id = ev.id)
    (hc : SportsDB.constraintsOK
        { events := SportsDB.replaceEvent db.events ev.id ev'
          mappings := db.mappings
            ++ [{ event_id := ev.id, source_name := src, source_event_id := sid }]
          nextId := db.nextId } = true) :
    SportsDB.wf
        { events := SportsDB.replaceEvent db.events ev.id ev'
          mappings := db.mappings
            ++ [{ event_id := ev.id, source_name := src, source_event_id := sid }]
          nextId := db.nextId } = true := by
  obtain ⟨hu, hfk, hbd, _⟩ := (wf_iff db).mp hwf
  rw [wf_iff]
  dsimp only
  refine ⟨?_, ?_, ?_, hc⟩
  · rw [idsUnique_replaceEvent hid hu hmem]
    exact hu
  · rw [List.all_append]
    rw [Bool.and_eq_true]
    refine ⟨?_, ?_⟩
    · rw [all_congr_mem (fun mp' _ =>
        any_id_replaceEvent hid hu hmem (fun i => i == mp'.event_id))]
      exact hfk
    · simp only [List.all_cons, List.all_nil, Bool.and_true]
      rw [any_id_replaceEvent hid hu hmem (fun i => i == ev.id)]
      exact any_id_of_mem hmem rfl
  · rw [all_id_replaceEvent hid hu hmem (fun i => decide (i < db.nextId))]
    exact hbd

/-- Preservation of well-formedness by the creation of a fresh event and
its first mapping row. -/
theorem wf_create (db : SportsDB.DB) (ne : SportsDB.Event) (src sid : String)
    (hwf : SportsDB.wf db = true) (hneid : ne.id = db.nextId)
    (hc : SportsDB.constraintsOK
        { events := db.events ++ [ne]
          mappings := db.mappings
            ++ [{ event_id := db.nextId, source_name := src, source_event_id := sid }]
          nextId := db.nextId + 1 } = true) :
    SportsDB.wf
        { events := db.events ++ [ne]
          mappings := db.mappings
            ++ [{ event_id := db.nextId, source_name := src, source_event_id := sid }]
          nextId := db.nextId + 1 } = true := by
  obtain ⟨hu, hfk, hbd, _⟩ := (wf_iff db).mp hwf
  rw [wf_iff]
  dsimp only
  refine ⟨?_, ?_, ?_, hc⟩
  · rw [SportsDB.idsUnique, pairwiseOK_append_singleton_iff]
    refine ⟨hu, fun x hx => ?_⟩
    have hxlt : x.id < db.nextId := by
      have := List.all_eq_true.mp hbd x hx
      simpa using this
    simp only [bne_iff_ne, ne_eq, hneid]
    omega
  · rw [List.all_append]
    rw [Bool.and_eq_true]
    refine ⟨?_, ?_⟩
    · rw [List.all_eq_true]
      intro mp' hmp'
      rw [List.any_append]
      rw [Bool.or_eq_true]
      exact Or.inl (List.all_eq_true.mp hfk mp' hmp')
    · simp only [List.all_cons, List.all_nil, Bool.and_true]
      rw [List.any_append]
      rw [Bool.or_eq_true]
      refine Or.inr ?_
      simp [hneid]
  · rw [List.all_append]
    rw [Bool.and_eq_true]
    refine ⟨?_, ?_⟩
    · rw [List.all_eq_true] at hbd ⊢
      intro x hx
      have := hbd x hx
      simp only [decide_eq_true_eq] at this ⊢
      omega
    · simp only [List.all_cons, List.all_nil, Bool.and_true, decide_eq_true_eq, hneid]
      omega

theorem resolveConflictFst (db : SportsDB.DB) (ts : Int) (hm aw : String)
    (lg : Option String) : (SportsDB.resolveConflict db ts hm aw lg).1 = db := by
  rw [SportsDB.resolveConflict]
  split <;> rfl

/-- One `save_or_update_event` call preserves well-formedness of the
store. -/
theorem wf_save (db : SportsDB.DB) (n : SportsDB.NormalizedEvent) (m : SportsDB.SourceData)
    (hwf : SportsDB.wf db = true) :
    SportsDB.wf (SportsDB.save_or_update_event db n m).1 = true := by
  obtain ⟨hu, hfk, hbd, hcon⟩ := (wf_iff db).mp hwf
  unfold SportsDB.save_or_update_event
  split
  · dsimp only
    split
    · -- target via existing mapping
      split
      · exact hwf
      · rename_i ev heq2
        have hmem : ev ∈ db.events := List.mem_of_find?_eq_some heq2
        split
        · split
          · rename_i hc
            exact wf_update_nomap db ev _ hwf hmem rfl hc
          · rw [resolveConflictFst]
            exact hwf
        · split
          · rename_i hc
            exact wf_update_nomap db ev _ hwf hmem rfl hc
          · rw [resolveConflictFst]
            exact hwf
    · split
      · -- target via dedup key, new mapping row
        rename_i ev heq2
        have hmem : ev ∈ db.events := List.mem_of_find?_eq_some heq2
        split
        · split
          · rename_i hc
            exact wf_update_addmap db ev _ _ _ hwf hmem rfl hc
          · rw [resolveConflictFst]
            exact hwf
        · split
          · rename_i hc
            exact wf_update_addmap db ev _ _ _ hwf hmem rfl hc
          · rw [resolveConflictFst]
            exact hwf
      · split
        · exact hwf
        · rename_i ne heq3
          split
          · rename_i hc
            exact wf_create db ne _ _ hwf (mkEvent_id heq3) hc
          · rw [resolveConflictFst]
            exact hwf
  · exact hwf

/-- Any sequence of upsert calls preserves well-formedness. -/
theorem wf_applyAll (obs : List (SportsDB.NormalizedEvent × SportsDB.SourceData))
    (db : SportsDB.DB) (hwf : SportsDB.wf db = true) :
    SportsDB.wf (SportsDB.applyAll db obs) = true := by
  induction obs generalizing db with
  | nil => exact hwf
  | cons o os ih =>
    rw [SportsDB.applyAll, List.foldl_cons]
    exact ih _ (wf_save db o.1 o.2 hwf)

/-- C2 (counterexample to the claim as stated): starting from the empty
(well-formed) store, three upserts leave two distinct canonical rows (ids 0
and 1) sharing the dedup tuple `(200, "H2", "A2", NULL)`.  The third upsert
reaches its merge target through the provider mapping `("p", "x")`, its
newer timestamp is accepted, and the field-copy rewrites the target's key
fields onto the second match's tuple; with a NULL `league_id` the
PostgreSQL unique constraint `uq_event_canonical` treats the rows as
distinct, so the commit succeeds and the duplicate persists. -/
theorem claim_C2_counterexample_null_league :
    SportsDB.wf SportsDB.emptyDB = true
      ∧ (Fixtures.dbDupKey.events.filter (fun e =>
            e.event_timestamp == 200 && e.home_team_name == "H2"
              && e.away_team_name == "A2" && e.league_id == none)).map (fun e => e.id)
          = [0, 1] := by
  decide

/-- C2 (amended): for every well-formed starting state and any number of
upsert calls in any order from any providers, at most one CanonicalEvent
exists for a given (scheduled start instant, home team name, away team
name, league identifier) tuple whose league identifier is non-NULL — two
rows of the resulting store agreeing on such a tuple are the same row. -/
theorem claim_C2_dedup_invariant
    (obs : List (SportsDB.NormalizedEvent × SportsDB.SourceData)) (db : SportsDB.DB)
    (hwf : SportsDB.wf db = true) :
    ∀ e1 e2, e1 ∈ (SportsDB.applyAll db obs).events → e2 ∈ (SportsDB.applyAll db obs).events →
      e1.event_timestamp = e2.event_timestamp → e1.home_team_name = e2.home_team_name →
      e1.away_team_name = e2.away_team_name → e1.league_id = e2.league_id →
      e1.league_id ≠ none → e1 = e2 := by
  intro e1 e2 h1 h2 hts hhm haw hlg hnn
  have hwf' := wf_applyAll obs db hwf
  obtain ⟨-, -, -, hcon⟩ := (wf_iff _).mp hwf'
  obtain ⟨hev, -⟩ := (constraintsOK_iff _).mp hcon
  have hsome : e1.league_id.isSome = true := Option.ne_none_iff_isSome.mp hnn
  have hsome2 : e2.league_id.isSome = true := by
    rw [← hlg]
    exact hsome
  rcases pairwiseOK_rel_of_mem hev h1 h2 with h | h | h
  · exact h
  · exfalso
    have hc : SportsDB.eventKeyClash e1 e2 = true := by
      rw [SportsDB.eventKeyClash]
      simp [hts, hhm, haw, hlg, hsome, hsome2]
    simp [hc] at h
  · exfalso
    have hc : SportsDB.eventKeyClash e2 e1 = true := by
      rw [SportsDB.eventKeyClash]
      simp [hts.symm, hhm.symm, haw.symm, hlg.symm, hsome, hsome2]
    simp [hc] at h

/-- Witness for C2 (amended): two providers report the same league-"10"
match from the empty store. -/
theorem claim_C2_dedup_invariant_witness :
    SportsDB.wf SportsDB.emptyDB = true
      ∧ (∀ e1 e2, e1 ∈ (SportsDB.applyAll SportsDB.emptyDB Fixtures.obsTwoProviders).events →
          e2 ∈ (SportsDB.applyAll SportsDB.emptyDB Fixtures.obsTwoProviders).events →
          e1.event_timestamp = e2.event_timestamp → e1.home_team_name = e2.home_team_name →
          e1.away_team_name = e2.away_team_name → e1.league_id = e2.league_id →
          e1.league_id ≠ none → e1 = e2) :=
  ⟨by decide, claim_C2_dedup_invariant Fixtures.obsTwoProviders SportsDB.emptyDB (by decide)⟩

/-- The Boolean `should_update` decision coincides with the spec-worded
acceptance condition. -/
theorem shouldUpdate_iff (ev : SportsDB.Event) (n : SportsDB.NormalizedEvent) (lu : Int) :
    SportsDB.shouldUpdate ev n lu = true ↔ SportsDB.specAccepts ev n lu := by
  rw [SportsDB.shouldUpdate, SportsDB.specAccepts]
  split
  · rename_i hgt
    exact ⟨fun _ => Or.inl hgt, fun _ => rfl⟩
  · rename_i hgt
    split
    · rename_i heq
      constructor
      · intro h
        rw [Bool.and_eq_true] at h
        obtain ⟨hst, hcg⟩ := h
        refine Or.inr ⟨heq, ?_, ?_⟩
        · rw [Bool.or_eq_true] at hst
          rcases hst with h1 | h1
          · exact Or.inl (by simpa using h1)
          · exact Or.inr (by simpa using h1)
        · revert hcg
          cases hj : n.current_game_time.join with
          | none =>
            intro hcg
            simp at hcg
          | some g =>
            intro hcg
            refine ⟨g, rfl, ?_⟩
            revert hcg
            cases hce : ev.current_game_time with
            | none => exact fun _ => Or.inl rfl
            | some g0 =>
              intro hcg
              exact Or.inr ⟨g0, rfl, by simpa using hcg⟩
      · rintro (hlt | ⟨heq2, hst, g, hg, hcmp⟩)
        · exact absurd hlt hgt
        · rw [Bool.and_eq_true]
          refine ⟨?_, ?_⟩
          · rw [Bool.or_eq_true]
            rcases hst with h1 | h1
            · exact Or.inl (by simp [h1])
            · exact Or.inr (by simp [h1])
          · rw [hg]
            rcases hcmp with h2 | ⟨g0, hg0, hlt0⟩
            · rw [h2]
            · rw [hg0]
              simpa using hlt0
    · rename_i hne
      constructor
      · intro h
        simp at h
      · rintro (hlt | ⟨heq2, _⟩)
        · exact absurd hlt hgt
        · exact absurd heq2 hne

/-- C1 (amended): for an upsert whose merge target `E` already existed
(found through its provider mapping or by the dedup key), whose inputs
pass validation, and whose commit cannot hit a uniqueness violation — the
incoming key fields agree with the target's, and, when the target is
reached by the dedup key, no existing mapping already pairs the target
with the incoming provider — the incoming observation overwrites the
target's fields — every key present in the incoming record is copied, and
`last_data_source` / `last_updated_timestamp` are set from the incoming
record — if and only if the spec's acceptance condition `specAccepts`
holds: strictly newer timestamp, or equal timestamps with the live
tie-break on `current_game_time`; in every other case the events table is
left untouched and the call returns the target with the non-error
`unchanged` outcome.  Without that proviso the claim is false: when the
commit violates a unique constraint the whole transaction — including an
accepted field update — is rolled back and the target keeps its old
fields although the acceptance condition held
(see `claim_C1_counterexample_rollback`). -/
theorem claim_C1_merge_policy (db : SportsDB.DB) (n : SportsDB.NormalizedEvent)
    (m : SportsDB.SourceData) (E : SportsDB.Event)
    (hwf : SportsDB.wf db = true)
    (hval : SportsDB.validateInputs n m = true)
    (htgt : SportsDB.mergeTarget db n m = some E)
    (hts : n.event_timestamp = some E.event_timestamp)
    (hhm : n.home_team_name = some E.home_team_name)
    (haw : n.away_team_name = some E.away_team_name)
    (hlg : n.league_id = none ∨ n.league_id = some E.league_id)
    (hnomap : SportsDB.findMapping db (m.source_name.getD "") (m.source_event_id.getD "")
          = none →
        ∀ mp ∈ db.mappings,
          ¬(mp.event_id = E.id ∧ mp.source_name = m.source_name.getD "")) :
    (SportsDB.specAccepts E n (n.last_updated_timestamp.getD 0) →
        (SportsDB.save_or_update_event db n m).1.events
            = SportsDB.replaceEvent db.events E.id
                (SportsDB.applyUpdate E n (m.source_name.getD "")
                  (n.last_updated_timestamp.getD 0))
          ∧ (SportsDB.save_or_update_event db n m).2.1
              = some (SportsDB.applyUpdate E n (m.source_name.getD "")
                  (n.last_updated_timestamp.getD 0))
          ∧ (SportsDB.save_or_update_event db n m).2.2 = SportsDB.Outcome.updated)
    ∧ (¬ SportsDB.specAccepts E n (n.last_updated_timestamp.getD 0) →
        (SportsDB.save_or_update_event db n m).1.events = db.events
          ∧ (SportsDB.save_or_update_event db n m).2.1 = some E
          ∧ (SportsDB.save_or_update_event db n m).2.2 = SportsDB.Outcome.unchanged) := by
  obtain ⟨hu, hfk, hbd, hcon⟩ := (wf_iff db).mp hwf
  obtain ⟨hev, hmapok⟩ := (constraintsOK_iff db).mp hcon
  have hkeyA : SportsDB.key4 (SportsDB.applyUpdate E n (m.source_name.getD "")
      (n.last_updated_timestamp.getD 0)) = SportsDB.key4 E := by
    rcases hlg with h | h <;>
      simp [SportsDB.key4, SportsDB.applyUpdate, hts, hhm, haw, h]
  rcases hm1 : SportsDB.findMapping db (m.source_name.getD "") (m.source_event_id.getD "")
    with _ | mp
  · -- target found by dedup key; a new mapping row is created
    rw [SportsDB.mergeTarget] at htgt
    try dsimp only at htgt
    rw [hm1] at htgt
    try dsimp only at htgt
    have hmemE : E ∈ db.events := List.mem_of_find?_eq_some htgt
    have hmapok2 : SportsDB.mappingsOK (db.mappings
        ++ [{ event_id := E.id, source_name := m.source_name.getD "",
              source_event_id := m.source_event_id.getD "" }]) = true := by
      rw [SportsDB.mappingsOK, pairwiseOK_append_singleton_iff]
      refine ⟨hmapok, fun x hx => ?_⟩
      have h1 : (x.source_name == m.source_name.getD ""
          && x.source_event_id == m.source_event_id.getD "") = false := by
        rw [Bool.eq_false_iff]
        exact List.find?_eq_none.mp hm1 x hx
      have h2 : (x.event_id == E.id && x.source_name == m.source_name.getD "") = false := by
        rw [Bool.eq_false_iff]
        intro hcontra
        rw [Bool.and_eq_true, beq_iff_eq, beq_iff_eq] at hcontra
        exact hnomap hm1 x hx hcontra
      simp [SportsDB.mappingClash, h1, h2]
    simp only [SportsDB.save_or_update_event]
    rw [if_pos hval]
    try dsimp only
    rw [hm1]
    try dsimp only
    rw [htgt]
    try dsimp only
    constructor
    · intro hacc
      have hsu := (shouldUpdate_iff E n (n.last_updated_timestamp.getD 0)).mpr hacc
      simp only [if_pos hsu]
      split
      · exact ⟨rfl, rfl, rfl⟩
      · rename_i hcf
        exfalso
        apply hcf
        rw [constraintsOK_iff]
        refine ⟨?_, ?_⟩
        · dsimp only
          rw [eventsOK_replaceEvent hu hmemE hkeyA rfl]
          exact hev
        · dsimp only
          exact hmapok2
    · intro hrej
      have hne : ¬ (SportsDB.shouldUpdate E n (n.last_updated_timestamp.getD 0) = true) := by
        intro h
        exact hrej ((shouldUpdate_iff E n (n.last_updated_timestamp.getD 0)).mp h)
      simp only [if_neg hne]
      rw [replaceEvent_self hu hmemE]
      split
      · exact ⟨rfl, rfl, rfl⟩
      · rename_i hcf
        exfalso
        apply hcf
        rw [constraintsOK_iff]
        exact ⟨hev, hmapok2⟩
  · -- target found through its existing source mapping
    rw [SportsDB.mergeTarget] at htgt
    try dsimp only at htgt
    rw [hm1] at htgt
    try dsimp only at htgt
    have hmemE : E ∈ db.events := List.mem_of_find?_eq_some htgt
    simp only [SportsDB.save_or_update_event]
    rw [if_pos hval]
    try dsimp only
    rw [hm1]
    try dsimp only
    rw [htgt]
    try dsimp only
    constructor
    · intro hacc
      have hsu := (shouldUpdate_iff E n (n.last_updated_timestamp.getD 0)).mpr hacc
      simp only [if_pos hsu]
      split
      · exact ⟨rfl, rfl, rfl⟩
      · rename_i hcf
        exfalso
        apply hcf
        rw [constraintsOK_iff]
        refine ⟨?_, ?_⟩
        · dsimp only
          rw [eventsOK_replaceEvent hu hmemE hkeyA rfl]
          exact hev
        · dsimp only
          exact hmapok
    · intro hrej
      have hne : ¬ (SportsDB.shouldUpdate E n (n.last_updated_timestamp.getD 0) = true) := by
        intro h
        exact hrej ((shouldUpdate_iff E n (n.last_updated_timestamp.getD 0)).mp h)
      simp only [if_neg hne]
      rw [replaceEvent_self hu hmemE]
      split
      · exact ⟨rfl, rfl, rfl⟩
      · rename_i hcf
        exfalso
        apply hcf
        rw [constraintsOK_iff]
        exact ⟨hev, hmapok⟩

/-- Witness for C1: a live observation with a newer timestamp reaching the
match held in `dbOne` through its provider mapping is accepted. -/
theorem claim_C1_merge_policy_witness :
    (SportsDB.save_or_update_event Fixtures.dbOne Fixtures.obsLive
          (Fixtures.pair "p" "x")).1.events
        = SportsDB.replaceEvent Fixtures.dbOne.events Fixtures.eOne.id
            (SportsDB.applyUpdate Fixtures.eOne Fixtures.obsLive
              ((Fixtures.pair "p" "x").source_name.getD "")
              (Fixtures.obsLive.last_updated_timestamp.getD 0))
      ∧ (SportsDB.save_or_update_event Fixtures.dbOne Fixtures.obsLive
          (Fixtures.pair "p" "x")).2.1
          = some (SportsDB.applyUpdate Fixtures.eOne Fixtures.obsLive
              ((Fixtures.pair "p" "x").source_name.getD "")
              (Fixtures.obsLive.last_updated_timestamp.getD 0))
      ∧ (SportsDB.save_or_update_event Fixtures.dbOne Fixtures.obsLive
          (Fixtures.pair "p" "x")).2.2 = SportsDB.Outcome.updated :=
  (claim_C1_merge_policy Fixtures.dbOne Fixtures.obsLive (Fixtures.pair "p" "x")
      Fixtures.eOne (by decide) (by decide) (by decide) (by decide) (by decide)
      (by decide) (Or.inr (by decide)) (by decide)).1 (Or.inl (by decide))

/-- C1 (counterexample to the claim as stated): the provider `"p"` already
maps the league-"L" match of `dbOneL` under event id `"x"` and reports it
again under event id `"y"` with a strictly newer timestamp.  The merge
target is found by the dedup key (the pair `("p", "y")` has no mapping),
the spec's acceptance condition holds (timestamp 2 > stored 1), yet the
store is returned completely untouched — the accepted field update is
rolled back together with the mapping insert that violated
`uq_event_id_source` — and the outcome is neither the claimed `updated`
nor the claimed `unchanged`.  So the acceptance condition holding does not
imply the fields are overwritten. -/
theorem claim_C1_counterexample_rollback :
    SportsDB.mergeTarget Fixtures.dbOneL
        (Fixtures.obs 100 "H" "A" (some "L") "scheduled" none 2)
        (Fixtures.pair "p" "y") = some Fixtures.eOneL
      ∧ SportsDB.specAccepts Fixtures.eOneL
          (Fixtures.obs 100 "H" "A" (some "L") "scheduled" none 2)
          ((Fixtures.obs 100 "H" "A" (some "L") "scheduled" none 2).last_updated_timestamp.getD 0)
      ∧ (SportsDB.save_or_update_event Fixtures.dbOneL
          (Fixtures.obs 100 "H" "A" (some "L") "scheduled" none 2)
          (Fixtures.pair "p" "y")).1 = Fixtures.dbOneL
      ∧ (SportsDB.save_or_update_event Fixtures.dbOneL
          (Fixtures.obs 100 "H" "A" (some "L") "scheduled" none 2)
          (Fixtures.pair "p" "y")).2.2 ≠ SportsDB.Outcome.updated
      ∧ (SportsDB.save_or_update_event Fixtures.dbOneL
          (Fixtures.obs 100 "H" "A" (some "L") "scheduled" none 2)
          (Fixtures.pair "p" "y")).2.2 ≠ SportsDB.Outcome.unchanged :=
  ⟨by decide, Or.inl (by decide), by decide, by decide, by decide⟩

theorem someSome_iff {α : Type _} (x : Option (Option α)) :
    SportsDB.someSome x = true ↔ ∃ v, x = some (some v) := by
  rcases x with _ | y
  · simp [SportsDB.someSome]
  · rcases y with _ | v <;> simp [SportsDB.someSome]

/-- A well-shaped observation with a usable provider pair passes the
line-54 validation. -/
theorem validate_of_wellShaped {n : SportsDB.NormalizedEvent} {m : SportsDB.SourceData}
    (hn : SportsDB.wellShaped n = true) (hm : SportsDB.sourceOK m = true) :
    SportsDB.validateInputs n m = true := by
  simp only [SportsDB.wellShaped, Bool.and_eq_true] at hn
  simp only [SportsDB.sourceOK, Bool.and_eq_true] at hm
  simp only [SportsDB.validateInputs, Bool.and_eq_true]
  tauto

/-- On well-shaped input the event construction succeeds and yields the
total normal form. -/
theorem mkEvent_wellShaped {n : SportsDB.NormalizedEvent} (h : SportsDB.wellShaped n = true)
    (nid : Nat) (src : String) (lu : Int) :
    SportsDB.mkEvent nid n src lu = some (SportsDB.mkEventW nid n src lu) := by
  simp only [SportsDB.wellShaped, Bool.and_eq_true] at h
  obtain ⟨⟨⟨⟨⟨⟨⟨⟨⟨⟨⟨⟨a1, a2⟩, a3⟩, a4⟩, a5⟩, a6⟩, a7⟩, a8⟩, a9⟩, a10⟩, a11⟩, a12⟩, a13⟩ := h
  obtain ⟨en, hen⟩ := Option.isSome_iff_exists.mp a1
  obtain ⟨sp, hsp⟩ := Option.isSome_iff_exists.mp a2
  obtain ⟨st, hst⟩ := Option.isSome_iff_exists.mp a3
  obtain ⟨hmv, hhm, -⟩ := (truthyStrIff _).mp a5
  obtain ⟨awv, haw, -⟩ := (truthyStrIff _).mp a6
  obtain ⟨ts, hts⟩ := Option.isSome_iff_exists.mp a11
  rw [SportsDB.mkEvent.eq_def, hen, hsp, hst, hhm, haw, hts]
  dsimp only
  rw [SportsDB.mkEventW]
  simp [hen, hsp, hst, hhm, haw, hts]

/-- On well-shaped input the field-copy update coincides with the creation
normal form at the target's id. -/
theorem applyUpdate_wellShaped {n : SportsDB.NormalizedEvent}
    (h : SportsDB.wellShaped n = true) (e : SportsDB.Event) (src : String) (lu : Int) :
    SportsDB.applyUpdate e n src lu = SportsDB.mkEventW e.id n src lu := by
  simp only [SportsDB.wellShaped, Bool.and_eq_true] at h
  obtain ⟨⟨⟨⟨⟨⟨⟨⟨⟨⟨⟨⟨a1, a2⟩, a3⟩, a4⟩, a5⟩, a6⟩, a7⟩, a8⟩, a9⟩, a10⟩, a11⟩, a12⟩, a13⟩ := h
  obtain ⟨en, hen⟩ := Option.isSome_iff_exists.mp a1
  obtain ⟨sp, hsp⟩ := Option.isSome_iff_exists.mp a2
  obtain ⟨st, hst⟩ := Option.isSome_iff_exists.mp a3
  obtain ⟨cg, hcg⟩ := Option.isSome_iff_exists.mp a4
  obtain ⟨hmv, hhm, -⟩ := (truthyStrIff _).mp a5
  obtain ⟨awv, haw, -⟩ := (truthyStrIff _).mp a6
  obtain ⟨hs, hhs⟩ := (someSome_iff _).mp a7
  obtain ⟨as2, has⟩ := (someSome_iff _).mp a8
  obtain ⟨ln, hln⟩ := Option.isSome_iff_exists.mp a9
  obtain ⟨lg, hlg⟩ := Option.isSome_iff_exists.mp a10
  obtain ⟨ts, hts⟩ := Option.isSome_iff_exists.mp a11
  obtain ⟨stt, hstt⟩ := (someSome_iff _).mp a13
  rw [SportsDB.applyUpdate, SportsDB.mkEventW]
  simp [hen, hsp, hst, hcg, hhm, haw, hhs, has, hln, hlg, hts, hstt]

/-- An upsert into the empty store creates the canonical event and its
first source mapping. -/
theorem save_empty (n : SportsDB.NormalizedEvent) (m : SportsDB.SourceData)
    (hn : SportsDB.wellShaped n = true) (hm : SportsDB.sourceOK m = true) :
    SportsDB.save_or_update_event SportsDB.emptyDB n m
      = ({ events := [SportsDB.mkEventW 0 n (m.source_name.getD "")
              (n.last_updated_timestamp.getD 0)]
           mappings := [{ event_id := 0, source_name := m.source_name.getD ""
                          source_event_id := m.source_event_id.getD "" }]
           nextId := 1 },
         some (SportsDB.mkEventW 0 n (m.source_name.getD "")
           (n.last_updated_timestamp.getD 0)),
         SportsDB.Outcome.created) := by
  have hval := validate_of_wellShaped hn hm
  simp only [SportsDB.save_or_update_event]
  rw [if_pos hval]
  try dsimp only
  rw [show SportsDB.findMapping SportsDB.emptyDB (m.source_name.getD "")
      (m.source_event_id.getD "") = none from rfl]
  try dsimp only
  rw [show SportsDB.findByKey SportsDB.emptyDB (n.event_timestamp.getD 0)
      (n.home_team_name.getD "") (n.away_team_name.getD "") n.league_id.join
      = none from rfl]
  try dsimp only
  rw [show SportsDB.emptyDB.nextId = 0 from rfl,
    mkEvent_wellShaped hn 0 (m.source_name.getD "") (n.last_updated_timestamp.getD 0)]
  try dsimp only
  split
  · rfl
  · rename_i hcf
    exact absurd rfl hcf


/-- C3 (amended): two well-shaped observations A, B of the same match
(same dedup key) with `A.last_updated_timestamp < B.last_updated_timestamp`
that share a provider pair or come from two different providers, applied to
the empty store: A-then-B and B-then-A both leave the store holding exactly
B's fields (A is rejected as stale in the second order), so the final
state is order-independent. -/
theorem claim_C3_order_independent
    (nA nB : SportsDB.NormalizedEvent) (mA mB : SportsDB.SourceData)
    (hA : SportsDB.wellShaped nA = true) (hB : SportsDB.wellShaped nB = true)
    (hmA : SportsDB.sourceOK mA = true) (hmB : SportsDB.sourceOK mB = true)
    (hts : nA.event_timestamp = nB.event_timestamp)
    (hhm : nA.home_team_name = nB.home_team_name)
    (haw : nA.away_team_name = nB.away_team_name)
    (hlg : nA.league_id.join = nB.league_id.join)
    (hlt : nA.last_updated_timestamp.getD 0 < nB.last_updated_timestamp.getD 0)
    (hprov : mA = mB ∨ mA.source_name ≠ mB.source_name) :
    (SportsDB.applyAll SportsDB.emptyDB [(nA, mA), (nB, mB)]).events
        = [SportsDB.mkEventW 0 nB (mB.source_name.getD "")
            (nB.last_updated_timestamp.getD 0)]
      ∧ (SportsDB.applyAll SportsDB.emptyDB [(nB, mB), (nA, mA)]).events
        = [SportsDB.mkEventW 0 nB (mB.source_name.getD "")
            (nB.last_updated_timestamp.getD 0)] := by
  have hvalA := validate_of_wellShaped hA hmA
  have hvalB := validate_of_wellShaped hB hmB
  have hidA : (SportsDB.mkEventW 0 nA (mA.source_name.getD "")
      (nA.last_updated_timestamp.getD 0)).id = 0 := rfl
  have hidB : (SportsDB.mkEventW 0 nB (mB.source_name.getD "")
      (nB.last_updated_timestamp.getD 0)).id = 0 := rfl
  have hluA : (SportsDB.mkEventW 0 nA (mA.source_name.getD "")
      (nA.last_updated_timestamp.getD 0)).last_updated_timestamp
      = nA.last_updated_timestamp.getD 0 := rfl
  have hluB : (SportsDB.mkEventW 0 nB (mB.source_name.getD "")
      (nB.last_updated_timestamp.getD 0)).last_updated_timestamp
      = nB.last_updated_timestamp.getD 0 := rfl
  simp only [SportsDB.applyAll, List.foldl_cons, List.foldl_nil]
  rw [save_empty nA mA hA hmA, save_empty nB mB hB hmB]
  dsimp only
  rcases hprov with heq | hne
  · -- same provider pair
    subst heq
    constructor
    · -- A then B: target reached through the mapping, newer timestamp wins
      simp only [SportsDB.save_or_update_event]
      rw [if_pos hvalB]
      try dsimp only
      rw [show SportsDB.findMapping
          { events := [SportsDB.mkEventW 0 nA (mA.source_name.getD "")
              (nA.last_updated_timestamp.getD 0)]
            mappings := [{ event_id := 0, source_name := mA.source_name.getD ""
                           source_event_id := mA.source_event_id.getD "" }]
            nextId := 1 } (mA.source_name.getD "") (mA.source_event_id.getD "")
          = some { event_id := 0, source_name := mA.source_name.getD ""
                   source_event_id := mA.source_event_id.getD "" } from by
        rw [SportsDB.findMapping]
        exact List.find?_cons_of_pos _ (by simp)]
      try dsimp only
      rw [show List.find? (fun e => e.id == 0)
          [SportsDB.mkEventW 0 nA (mA.source_name.getD "")
            (nA.last_updated_timestamp.getD 0)]
          = some (SportsDB.mkEventW 0 nA (mA.source_name.getD "")
              (nA.last_updated_timestamp.getD 0)) from
        List.find?_cons_of_pos _ (by simp [hidA])]
      try dsimp only
      have hsu : SportsDB.shouldUpdate
          (SportsDB.mkEventW 0 nA (mA.source_name.getD "")
            (nA.last_updated_timestamp.getD 0)) nB
          (nB.last_updated_timestamp.getD 0) = true := by
        rw [SportsDB.shouldUpdate, hluA, if_pos hlt]
      simp only [if_pos hsu]
      rw [applyUpdate_wellShaped hB, hidA]
      rw [show SportsDB.replaceEvent
          [SportsDB.mkEventW 0 nA (mA.source_name.getD "")
            (nA.last_updated_timestamp.getD 0)] 0
          (SportsDB.mkEventW 0 nB (mA.source_name.getD "")
            (nB.last_updated_timestamp.getD 0))
          = [SportsDB.mkEventW 0 nB (mA.source_name.getD "")
              (nB.last_updated_timestamp.getD 0)] from by
        rw [SportsDB.replaceEvent, List.map_cons, List.map_nil, if_pos (by simp [hidA])]]
      split
      · rfl
      · rename_i hcf
        exact absurd rfl hcf
    · -- B then A: the stale observation is rejected through the mapping
      simp only [SportsDB.save_or_update_event]
      rw [if_pos hvalA]
      try dsimp only
      rw [show SportsDB.findMapping
          { events := [SportsDB.mkEventW 0 nB (mA.source_name.getD "")
              (nB.last_updated_timestamp.getD 0)]
            mappings := [{ event_id := 0, source_name := mA.source_name.getD ""
                           source_event_id := mA.source_event_id.getD "" }]
            nextId := 1 } (mA.source_name.getD "") (mA.source_event_id.getD "")
          = some { event_id := 0, source_name := mA.source_name.getD ""
                   source_event_id := mA.source_event_id.getD "" } from by
        rw [SportsDB.findMapping]
        exact List.find?_cons_of_pos _ (by simp)]
      try dsimp only
      rw [show List.find? (fun e => e.id == 0)
          [SportsDB.mkEventW 0 nB (mA.source_name.getD "")
            (nB.last_updated_timestamp.getD 0)]
          = some (SportsDB.mkEventW 0 nB (mA.source_name.getD "")
              (nB.last_updated_timestamp.getD 0)) from
        List.find?_cons_of_pos _ (by simp [hidB])]
      try dsimp only
      have hsu : SportsDB.shouldUpdate
          (SportsDB.mkEventW 0 nB (mA.source_name.getD "")
            (nB.last_updated_timestamp.getD 0)) nA
          (nA.last_updated_timestamp.getD 0) = false := by
        rw [SportsDB.shouldUpdate, hluB, if_neg (by omega), if_neg (by omega)]
      simp only [hsu, Bool.false_eq_true, if_false]
      rw [show SportsDB.replaceEvent
          [SportsDB.mkEventW 0 nB (mA.source_name.getD "")
            (nB.last_updated_timestamp.getD 0)]
          (SportsDB.mkEventW 0 nB (mA.source_name.getD "")
            (nB.last_updated_timestamp.getD 0)).id
          (SportsDB.mkEventW 0 nB (mA.source_name.getD "")
            (nB.last_updated_timestamp.getD 0))
          = [SportsDB.mkEventW 0 nB (mA.source_name.getD "")
              (nB.last_updated_timestamp.getD 0)] from by
        rw [SportsDB.replaceEvent, List.map_cons, List.map_nil, if_pos (by simp)]]
      split
      · rfl
      · rename_i hcf
        exact absurd rfl hcf
  · -- distinct providers
    obtain ⟨sa, hsa, -⟩ := (truthyStrIff _).mp
      (by simp only [SportsDB.sourceOK, Bool.and_eq_true] at hmA; exact hmA.1)
    obtain ⟨sb, hsb, -⟩ := (truthyStrIff _).mp
      (by simp only [SportsDB.sourceOK, Bool.and_eq_true] at hmB; exact hmB.1)
    have hsne : sa ≠ sb := fun h => hne (by rw [hsa, hsb, h])
    have hsne2 : sb ≠ sa := fun h => hsne h.symm
    have hlg2 : (nA.league_id.bind fun a => a) = nB.league_id.bind fun a => a := hlg
    constructor
    · -- A then B: target reached by dedup key, newer timestamp wins,
      -- second mapping row created
      simp only [SportsDB.save_or_update_event]
      rw [if_pos hvalB]
      try dsimp only
      rw [show SportsDB.findMapping
          { events := [SportsDB.mkEventW 0 nA (mA.source_name.getD "")
              (nA.last_updated_timestamp.getD 0)]
            mappings := [{ event_id := 0, source_name := mA.source_name.getD ""
                           source_event_id := mA.source_event_id.getD "" }]
            nextId := 1 } (mB.source_name.getD "") (mB.source_event_id.getD "")
          = none from by
        rw [SportsDB.findMapping]
        refine List.find?_eq_none.mpr ?_
        intro x hx
        rcases List.mem_singleton.mp hx with rfl
        simp [hsa, hsb, hsne]]
      try dsimp only
      rw [show SportsDB.findByKey
          { events := [SportsDB.mkEventW 0 nA (mA.source_name.getD "")
              (nA.last_updated_timestamp.getD 0)]
            mappings := [{ event_id := 0, source_name := mA.source_name.getD ""
                           source_event_id := mA.source_event_id.getD "" }]
            nextId := 1 } (nB.event_timestamp.getD 0) (nB.home_team_name.getD "")
            (nB.away_team_name.getD "") nB.league_id.join
          = some (SportsDB.mkEventW 0 nA (mA.source_name.getD "")
              (nA.last_updated_timestamp.getD 0)) from by
        rw [SportsDB.findByKey]
        exact List.find?_cons_of_pos _
          (by simp [SportsDB.mkEventW, hts, hhm, haw, hlg, hlg2])]
      try dsimp only
      have hsu : SportsDB.shouldUpdate
          (SportsDB.mkEventW 0 nA (mA.source_name.getD "")
            (nA.last_updated_timestamp.getD 0)) nB
          (nB.last_updated_timestamp.getD 0) = true := by
        rw [SportsDB.shouldUpdate, hluA, if_pos hlt]
      simp only [if_pos hsu]
      rw [applyUpdate_wellShaped hB, hidA]
      rw [show SportsDB.replaceEvent
          [SportsDB.mkEventW 0 nA (mA.source_name.getD "")
            (nA.last_updated_timestamp.getD 0)] 0
          (SportsDB.mkEventW 0 nB (mB.source_name.getD "")
            (nB.last_updated_timestamp.getD 0))
          = [SportsDB.mkEventW 0 nB (mB.source_name.getD "")
              (nB.last_updated_timestamp.getD 0)] from by
        rw [SportsDB.replaceEvent, List.map_cons, List.map_nil, if_pos (by simp [hidA])]]
      have hcOK : SportsDB.constraintsOK
          { events := [SportsDB.mkEventW 0 nB (mB.source_name.getD "")
              (nB.last_updated_timestamp.getD 0)]
            mappings := [{ event_id := 0, source_name := mA.source_name.getD ""
                           source_event_id := mA.source_event_id.getD "" }]
              ++ [{ event_id := 0, source_name := mB.source_name.getD ""
                    source_event_id := mB.source_event_id.getD "" }]
            nextId := 1 } = true := by
        simp [SportsDB.constraintsOK, SportsDB.eventsOK, SportsDB.mappingsOK,
          SportsDB.pairwiseOK, SportsDB.mappingClash, hsa, hsb, hsne]
      split
      · rfl
      · rename_i hcf
        exact absurd hcOK hcf
    · -- B then A: the stale observation is rejected by the dedup-key target,
      -- its mapping row is still created
      simp only [SportsDB.save_or_update_event]
      rw [if_pos hvalA]
      try dsimp only
      rw [show SportsDB.findMapping
          { events := [SportsDB.mkEventW 0 nB (mB.source_name.getD "")
              (nB.last_updated_timestamp.getD 0)]
            mappings := [{ event_id := 0, source_name := mB.source_name.getD ""
                           source_event_id := mB.source_event_id.getD "" }]
            nextId := 1 } (mA.source_name.getD "") (mA.source_event_id.getD "")
          = none from by
        rw [SportsDB.findMapping]
        refine List.find?_eq_none.mpr ?_
        intro x hx
        rcases List.mem_singleton.mp hx with rfl
        simp [hsa, hsb, hsne2]]
      try dsimp only
      rw [show SportsDB.findByKey
          { events := [SportsDB.mkEventW 0 nB (mB.source_name.getD "")
              (nB.last_updated_timestamp.getD 0)]
            mappings := [{ event_id := 0, source_name := mB.source_name.getD ""
                           source_event_id := mB.source_event_id.getD "" }]
            nextId := 1 } (nA.event_timestamp.getD 0) (nA.home_team_name.getD "")
            (nA.away_team_name.getD "") nA.league_id.join
          = some (SportsDB.mkEventW 0 nB (mB.source_name.getD "")
              (nB.last_updated_timestamp.getD 0)) from by
        rw [SportsDB.findByKey]
        exact List.find?_cons_of_pos _
          (by simp [SportsDB.mkEventW, hts, hhm, haw, hlg, hlg2])]
      try dsimp only
      have hsu : SportsDB.shouldUpdate
          (SportsDB.mkEventW 0 nB (mB.source_name.getD "")
            (nB.last_updated_timestamp.getD 0)) nA
          (nA.last_updated_timestamp.getD 0) = false := by
        rw [SportsDB.shouldUpdate, hluB, if_neg (by omega), if_neg (by omega)]
      simp only [hsu, Bool.false_eq_true, if_false]
      rw [show SportsDB.replaceEvent
          [SportsDB.mkEventW 0 nB (mB.source_name.getD "")
            (nB.last_updated_timestamp.getD 0)]
          (SportsDB.mkEventW 0 nB (mB.source_name.getD "")
            (nB.last_updated_timestamp.getD 0)).id
          (SportsDB.mkEventW 0 nB (mB.source_name.getD "")
            (nB.last_updated_timestamp.getD 0))
          = [SportsDB.mkEventW 0 nB (mB.source_name.getD "")
              (nB.last_updated_timestamp.getD 0)] from by
        rw [SportsDB.replaceEvent, List.map_cons, List.map_nil, if_pos (by simp)]]
      have hcOK : SportsDB.constraintsOK
          { events := [SportsDB.mkEventW 0 nB (mB.source_name.getD "")
              (nB.last_updated_timestamp.getD 0)]
            mappings := [{ event_id := 0, source_name := mB.source_name.getD ""
                           source_event_id := mB.source_event_id.getD "" }]
              ++ [{ event_id := 0, source_name := mA.source_name.getD ""
                    source_event_id := mA.source_event_id.getD "" }]
            nextId := 1 } = true := by
        simp [SportsDB.constraintsOK, SportsDB.eventsOK, SportsDB.mappingsOK,
          SportsDB.pairwiseOK, SportsDB.mappingClash, hsa, hsb, hsne2]
      split
      · rfl
      · rename_i hcf
        exact absurd hcOK hcf

/-- C3 (counterexample to the claim as stated): the same provider reports
the same match (same dedup key) under two different provider event ids.
Applying the older observation (timestamp 1) and then the newer one
(timestamp 2) leaves the store holding the OLD fields: the accepted update
is rolled back because the second mapping row for `(event, "p")` violates
`uq_event_id_source`, and the call returns the existing row
(`conflictResolved`).  The reverse order keeps the newer fields, so the
final state is order-dependent and A-then-B does not yield B's fields. -/
theorem claim_C3_counterexample_same_provider :
    Fixtures.dbSameProvAB.events.map (fun e => e.last_updated_timestamp) = [1]
      ∧ Fixtures.dbSameProvBA.events.map (fun e => e.last_updated_timestamp) = [2]
      ∧ (SportsDB.save_or_update_event Fixtures.dbOneL
          (Fixtures.obs 100 "H" "A" (some "L") "scheduled" none 2)
          (Fixtures.pair "p" "y")).2.2 = SportsDB.Outcome.conflictResolved := by
  decide

/-- Witness for C3 (amended): two different providers report the same
league-"10" match with timestamps 1 and 2. -/
theorem claim_C3_order_independent_witness :
    (SportsDB.applyAll SportsDB.emptyDB
        [(Fixtures.obs 100 "H" "A" (some "10") "scheduled" none 1, Fixtures.pair "p" "x"),
         (Fixtures.obs 100 "H" "A" (some "10") "scheduled" none 2, Fixtures.pair "q" "y")]).events
        = [SportsDB.mkEventW 0 (Fixtures.obs 100 "H" "A" (some "10") "scheduled" none 2)
            ((Fixtures.pair "q" "y").source_name.getD "")
            ((Fixtures.obs 100 "H" "A" (some "10") "scheduled" none 2).last_updated_timestamp.getD 0)]
      ∧ (SportsDB.applyAll SportsDB.emptyDB
        [(Fixtures.obs 100 "H" "A" (some "10") "scheduled" none 2, Fixtures.pair "q" "y"),
         (Fixtures.obs 100 "H" "A" (some "10") "scheduled" none 1, Fixtures.pair "p" "x")]).events
        = [SportsDB.mkEventW 0 (Fixtures.obs 100 "H" "A" (some "10") "scheduled" none 2)
            ((Fixtures.pair "q" "y").source_name.getD "")
            ((Fixtures.obs 100 "H" "A" (some "10") "scheduled" none 2).last_updated_timestamp.getD 0)] :=
  claim_C3_order_independent
    (Fixtures.obs 100 "H" "A" (some "10") "scheduled" none 1)
    (Fixtures.obs 100 "H" "A" (some "10") "scheduled" none 2)
    (Fixtures.pair "p" "x") (Fixtures.pair "q" "y")
    (by decide) (by decide) (by decide) (by decide) (by decide) (by decide)
    (by decide) (by decide) (by decide) (Or.inr (by decide))
